import Mathlib

set_option maxRecDepth 40000

/-!
Verification of the dialog-orchestration subsystem of the fincred backend
(`app/llm/providers/fallback.py`, `app/services/dialog/intents.py`,
`app/llm/prompts/manager.py`, `app/services/dialog/context.py`,
`app/services/dialog/conversation.py`) against its natural-language
specification.

The Python code is shallowly embedded: async methods become pure functions
(awaited network calls are modelled by provider behaviour functions supplied
as data), exceptions become `Except`, and the in-memory session store becomes
explicit state passing.
-/

namespace Fincred

/-! ## `app/llm/providers/base.py`: value types -/

/-- `LLMResponse` (base.py): the content and model fields that the fallback
chain and conversation service inspect.  Optional usage/metadata fields are
never read by the code under verification and are omitted. -/
structure LLMResponse where
  content : String
  model : String
  deriving Repr, DecidableEq

/-- `Message` (base.py): one conversation message. -/
structure ConvMessage where
  role : String
  content : String
  deriving Repr, DecidableEq

/-! ## `app/llm/providers/fallback.py`: the fallback chain

A provider is modelled by its identity string (Python `str(provider)` =
`"provider_name:model_name"`), its `is_available()` result, and its observable
behaviour: for `generate`, the outcome of the k-th call made to it during one
chain invocation; for `stream`, the fragments it yields followed by how the
stream terminates. -/

/-- Outcome of one `provider.generate` call: a normal return, a raised
`RateLimitError` (carrying `e.message`), or any other raised exception
(carrying `str(e)`). -/
inductive GenOutcome where
  | success (resp : LLMResponse)
  | rateLimited (msg : String)
  | failure (msg : String)
  deriving Repr, DecidableEq

/-- Termination of one `provider.stream` iteration: normal completion, a
raised `RateLimitError`, or any other exception, after the fragments were
yielded. -/
inductive StreamTerminal where
  | complete
  | rateLimited (msg : String)
  | failure (msg : String)
  deriving Repr, DecidableEq

/-- Behavioural model of one provider in the chain. -/
structure Provider where
  name : String
  avail : Bool
  genBehavior : Nat → GenOutcome
  streamFrags : List String
  streamTerm : StreamTerminal

/-- `AllProvidersFailedError` (exceptions.py): carries the message and the
ordered `(str(provider), reason)` pairs accumulated by the chain. -/
structure AllProvidersFailedError where
  message : String
  errors : List (String × String)
  deriving Repr, DecidableEq

/-- Trace entry recording how the chain interacted with one provider:
skipped as unavailable, or called `calls` times with `sleeps` inter-retry
delays.  Providers the chain never reached have no entry. -/
inductive ProvTrace where
  | skipped (name : String)
  | tried (name : String) (calls sleeps : Nat)
  deriving Repr, DecidableEq

/-- Result of the per-provider retry loop in `FallbackChain.generate`
(lines 115-146): either a response, or the single error string recorded for
this provider, together with how many `generate` calls and how many
`asyncio.sleep(retry_delay)` delays happened. -/
inductive AttemptResult where
  | ok (resp : LLMResponse) (calls sleeps : Nat)
  | failed (reason : String) (calls sleeps : Nat)
  deriving Repr, DecidableEq

/-- The `for attempt in range(self._max_retries + 1)` loop of
`FallbackChain.generate`, for one provider: `attempt` is the current attempt
index, `remaining` the number of further attempts allowed after this one.
A success returns immediately; a `RateLimitError` records
`"Rate limited: " ++ msg` and breaks; any other error sleeps and retries
while attempts remain, else records `str(e)`. -/
def tryAttempts (b : Nat → GenOutcome) : Nat → Nat → AttemptResult
  | attempt, remaining =>
    match b attempt, remaining with
    | .success r, _ => .ok r 1 0
    | .rateLimited m, _ => .failed ("Rate limited: " ++ m) 1 0
    | .failure m, 0 => .failed m 1 0
    | .failure _, r + 1 =>
      match tryAttempts b (attempt + 1) r with
      | .ok resp c s => .ok resp (c + 1) (s + 1)
      | .failed reason c s => .failed reason (c + 1) (s + 1)

/-- The provider loop of `FallbackChain.generate` (lines 107-153), carrying
the accumulated `errors` list; `total` is `len(self._providers)` used in the
terminal message.  Returns the result together with the interaction trace. -/
def generateAux (maxRetries total : Nat) :
    List Provider → List (String × String) →
    Except AllProvidersFailedError LLMResponse × List ProvTrace
  | [], errors =>
    (.error ⟨"All " ++ toString total ++ " LLM providers failed", errors⟩, [])
  | p :: rest, errors =>
    if p.avail then
      match tryAttempts p.genBehavior 0 maxRetries with
      | .ok r c s => (.ok r, [.tried p.name c s])
      | .failed reason c s =>
        let next := generateAux maxRetries total rest (errors ++ [(p.name, reason)])
        (next.1, .tried p.name c s :: next.2)
    else
      let next :=
        generateAux maxRetries total rest (errors ++ [(p.name, "Provider not available")])
      (next.1, .skipped p.name :: next.2)

/-- `FallbackChain.generate`: run the chain over its providers with an empty
error list. -/
def FallbackChain.generate (providers : List Provider) (maxRetries : Nat) :
    Except AllProvidersFailedError LLMResponse × List ProvTrace :=
  generateAux maxRetries providers.length providers []

/-- The provider loop of `FallbackChain.stream` (lines 178-211).  Returns the
fragments forwarded to the caller (in order, including fragments of providers
that later failed mid-stream) and either success or the terminal error. -/
def streamAux (total : Nat) :
    List Provider → List (String × String) →
    List String × Except AllProvidersFailedError Unit
  | [], errors =>
    ([], .error ⟨"All " ++ toString total ++ " LLM providers failed for streaming", errors⟩)
  | p :: rest, errors =>
    if p.avail then
      match p.streamTerm with
      | .complete => (p.streamFrags, .ok ())
      | .rateLimited m =>
        let next := streamAux total rest (errors ++ [(p.name, "Rate limited: " ++ m)])
        (p.streamFrags ++ next.1, next.2)
      | .failure m =>
        let next := streamAux total rest (errors ++ [(p.name, m)])
        (p.streamFrags ++ next.1, next.2)
    else
      streamAux total rest (errors ++ [(p.name, "Provider not available")])

/-- `FallbackChain.stream`: run the streaming path of the chain. -/
def FallbackChain.stream (providers : List Provider) :
    List String × Except AllProvidersFailedError Unit :=
  streamAux providers.length providers []

/-- `FallbackChain.is_available` (line 83-85). -/
def FallbackChain.is_available (providers : List Provider) : Bool :=
  providers.any (·.avail)

/-! ### Lemmas about the retry loop -/

/-- A provider whose every call raises a non-rate-limit error exhausts all
`remaining + 1` attempts, sleeping between consecutive attempts. -/
theorem tryAttempts_allFail (b : Nat → GenOutcome)
    (h : ∀ k, ∃ m, b k = .failure m) :
    ∀ r a, ∃ reason, tryAttempts b a r = .failed reason (r + 1) r := by
  intro r
  induction r with
  | zero =>
    intro a
    obtain ⟨m, hm⟩ := h a
    exact ⟨m, by simp [tryAttempts, hm]⟩
  | succ r ih =>
    intro a
    obtain ⟨m, hm⟩ := h a
    obtain ⟨reason, hr⟩ := ih (a + 1)
    exact ⟨reason, by simp [tryAttempts, hm, hr]⟩

/-- A provider that never returns a successful response ends its retry loop
with a recorded failure. -/
theorem tryAttempts_noSuccess (b : Nat → GenOutcome)
    (h : ∀ k resp, b k ≠ .success resp) :
    ∀ r a, ∃ reason c s, tryAttempts b a r = .failed reason c s := by
  intro r
  induction r with
  | zero =>
    intro a
    cases hb : b a with
    | success resp => exact absurd hb (h a resp)
    | rateLimited m => exact ⟨"Rate limited: " ++ m, 1, 0, by simp [tryAttempts, hb]⟩
    | failure m => exact ⟨m, 1, 0, by simp [tryAttempts, hb]⟩
  | succ r ih =>
    intro a
    cases hb : b a with
    | success resp => exact absurd hb (h a resp)
    | rateLimited m => exact ⟨"Rate limited: " ++ m, 1, 0, by simp [tryAttempts, hb]⟩
    | failure m =>
      obtain ⟨reason, c, s, hr⟩ := ih (a + 1)
      exact ⟨reason, c + 1, s + 1, by simp [tryAttempts, hb, hr]⟩

/-- Chain behaviour on a prefix of available, always-failing providers
followed by a provider that succeeds on its first call. -/
theorem generateAux_failover (firstK : List Provider) (succ : Provider)
    (rest : List Provider) (maxRetries total : Nat) (resp : LLMResponse)
    (hfail : ∀ p ∈ firstK, p.avail = true ∧ ∀ k, ∃ m, p.genBehavior k = .failure m)
    (hsucc : succ.avail = true) (hresp : succ.genBehavior 0 = .success resp) :
    ∀ errs, generateAux maxRetries total (firstK ++ succ :: rest) errs =
      (.ok resp,
       firstK.map (fun p => .tried p.name (maxRetries + 1) maxRetries)
         ++ [.tried succ.name 1 0]) := by
  induction firstK with
  | nil =>
    intro errs
    simp [generateAux, hsucc, tryAttempts, hresp]
  | cons p ps ih =>
    intro errs
    obtain ⟨hav, hb⟩ := hfail p (by simp)
    obtain ⟨reason, hr⟩ := tryAttempts_allFail p.genBehavior hb maxRetries 0
    have ih' := ih (fun q hq => hfail q (by simp [hq]))
    simp [generateAux, hav, hr, ih']

/-- Chain behaviour when every provider is unavailable or never succeeds:
the error accumulator grows by exactly one `(identity, reason)` pair per
provider, in chain order. -/
theorem generateAux_allFail (maxRetries total : Nat) :
    ∀ (ps : List Provider) (errs : List (String × String)),
      (∀ p ∈ ps, p.avail = true → ∀ k resp, p.genBehavior k ≠ .success resp) →
      ∃ tail,
        (generateAux maxRetries total ps errs).1 =
          .error ⟨"All " ++ toString total ++ " LLM providers failed", errs ++ tail⟩ ∧
        tail.map Prod.fst = ps.map Provider.name := by
  intro ps
  induction ps with
  | nil => exact fun errs _ => ⟨[], by simp [generateAux]⟩
  | cons p rest ih =>
    intro errs h
    by_cases hav : p.avail = true
    · obtain ⟨reason, c, s, hr⟩ :=
        tryAttempts_noSuccess p.genBehavior (h p (by simp) hav) maxRetries 0
      obtain ⟨tail, h1, h2⟩ :=
        ih (errs ++ [(p.name, reason)]) (fun q hq => h q (by simp [hq]))
      refine ⟨(p.name, reason) :: tail, ?_, by simp [h2]⟩
      simp only [generateAux, hav, if_true, hr]
      rw [h1]
      simp
    · obtain ⟨tail, h1, h2⟩ :=
        ih (errs ++ [(p.name, "Provider not available")]) (fun q hq => h q (by simp [hq]))
      refine ⟨(p.name, "Provider not available") :: tail, ?_, by simp [h2]⟩
      simp only [generateAux, hav, if_false, Bool.false_eq_true]
      rw [h1]
      simp

/-! ### Claim theorems for the fallback chain -/

/-- C1: for a chain whose first `K` providers are available but fail every
attempt with non-rate-limit errors while provider `K + 1` succeeds,
`generate` returns the response of provider `K + 1`, each failing provider is
called exactly `max_retries + 1` times, and providers after `K + 1` never
appear in the interaction trace. -/
theorem cl_C1_generate_failover (firstK : List Provider) (succ : Provider)
    (rest : List Provider) (maxRetries : Nat) (resp : LLMResponse)
    (hfail : ∀ p ∈ firstK, p.avail = true ∧ ∀ k, ∃ m, p.genBehavior k = .failure m)
    (hsucc : succ.avail = true) (hresp : succ.genBehavior 0 = .success resp) :
    FallbackChain.generate (firstK ++ succ :: rest) maxRetries =
      (.ok resp,
       firstK.map (fun p => .tried p.name (maxRetries + 1) maxRetries)
         ++ [.tried succ.name 1 0]) := by
  unfold FallbackChain.generate
  exact generateAux_failover firstK succ rest maxRetries _ resp hfail hsucc hresp []

/-- Witness for C1: one failing provider, then one succeeding provider, with
`max_retries = 1`: the failing provider is called twice, the succeeding one
once, and the chain returns the success. -/
theorem cl_C1_generate_failover_witness :
    FallbackChain.generate
        [⟨"bad:model", true, fun _ => .failure "boom", [], .complete⟩,
         ⟨"good:model", true, fun _ => .success ⟨"hi", "m"⟩, [], .complete⟩] 1 =
      (.ok ⟨"hi", "m"⟩, [.tried "bad:model" 2 1, .tried "good:model" 1 0]) := by
  have h := cl_C1_generate_failover
    [⟨"bad:model", true, fun _ => .failure "boom", [], .complete⟩]
    ⟨"good:model", true, fun _ => .success ⟨"hi", "m"⟩, [], .complete⟩
    [] 1 ⟨"hi", "m"⟩
    (by intro p hp; simp at hp; subst hp; exact ⟨rfl, fun k => ⟨"boom", rfl⟩⟩)
    rfl rfl
  simpa using h

/-- C2: when every provider is unavailable or fails all of its attempts,
`generate` raises `AllProvidersFailedError` carrying exactly one
`(provider-identity, reason)` pair per provider, in chain order. -/
theorem cl_C2_generate_all_fail (providers : List Provider) (maxRetries : Nat)
    (hfail : ∀ p ∈ providers, p.avail = true → ∀ k resp, p.genBehavior k ≠ .success resp) :
    ∃ e : AllProvidersFailedError,
      (FallbackChain.generate providers maxRetries).1 = .error e ∧
      e.errors.length = providers.length ∧
      e.errors.map Prod.fst = providers.map Provider.name := by
  obtain ⟨tail, h1, h2⟩ := generateAux_allFail maxRetries providers.length providers [] hfail
  refine ⟨_, by simpa using h1, ?_, by simpa using h2⟩
  have := congrArg List.length h2
  simpa using this

/-- Witness for C2: an unavailable provider followed by an available one that
always raises: the terminal error carries exactly two pairs, in order. -/
theorem cl_C2_generate_all_fail_witness :
    ∃ e : AllProvidersFailedError,
      (FallbackChain.generate
          [⟨"off:model", false, fun _ => .failure "x", [], .complete⟩,
           ⟨"bad:model", true, fun _ => .rateLimited "slow down", [], .complete⟩] 3).1 =
        .error e ∧
      e.errors.length = 2 ∧
      e.errors.map Prod.fst = ["off:model", "bad:model"] := by
  have h := cl_C2_generate_all_fail
    [⟨"off:model", false, fun _ => .failure "x", [], .complete⟩,
     ⟨"bad:model", true, fun _ => .rateLimited "slow down", [], .complete⟩] 3
    (by
      intro p hp
      simp at hp
      rcases hp with h | h <;> subst h <;> intro hav k resp <;> simp at hav ⊢)
  simpa using h

/-- C3: a mid-stream provider failure forwards the fragments already yielded
(they are a prefix of the chain output, not retracted), records the failure,
and restarts streaming from scratch on the rest of the chain; and when no
provider completes a stream, the chain raises the same aggregate error type
as `generate`, with one recorded failure per provider. -/
theorem cl_C3_stream_partial_and_all_fail :
    (∀ (p : Provider) (rest : List Provider) (m : String) (total : Nat)
       (errs : List (String × String)),
       p.avail = true → p.streamTerm = .failure m →
       streamAux total (p :: rest) errs =
         (p.streamFrags ++ (streamAux total rest (errs ++ [(p.name, m)])).1,
          (streamAux total rest (errs ++ [(p.name, m)])).2)) ∧
    (∀ ps : List Provider,
       (∀ p ∈ ps, p.avail = true → p.streamTerm ≠ .complete) →
       ∃ e : AllProvidersFailedError,
         (FallbackChain.stream ps).2 = .error e ∧
         e.errors.length = ps.length) := by
  constructor
  · intro p rest m total errs hav hterm
    simp [streamAux, hav, hterm]
  · have aux : ∀ (total : Nat) (ps : List Provider) (errs : List (String × String)),
        (∀ p ∈ ps, p.avail = true → p.streamTerm ≠ .complete) →
        ∃ tail, (streamAux total ps errs).2 =
            .error ⟨"All " ++ toString total ++ " LLM providers failed for streaming",
                    errs ++ tail⟩ ∧
          tail.length = ps.length := by
      intro total ps
      induction ps with
      | nil => exact fun errs _ => ⟨[], by simp [streamAux]⟩
      | cons p rest ih =>
        intro errs h
        by_cases hav : p.avail = true
        · cases hterm : p.streamTerm with
          | complete => exact absurd hterm (h p (by simp) hav)
          | rateLimited m =>
            obtain ⟨tail, h1, h2⟩ :=
              ih (errs ++ [(p.name, "Rate limited: " ++ m)]) (fun q hq => h q (by simp [hq]))
            refine ⟨(p.name, "Rate limited: " ++ m) :: tail, ?_, by simp [h2]⟩
            simp only [streamAux, hav, if_true, hterm]
            rw [h1]
            simp
          | failure m =>
            obtain ⟨tail, h1, h2⟩ :=
              ih (errs ++ [(p.name, m)]) (fun q hq => h q (by simp [hq]))
            refine ⟨(p.name, m) :: tail, ?_, by simp [h2]⟩
            simp only [streamAux, hav, if_true, hterm]
            rw [h1]
            simp
        · obtain ⟨tail, h1, h2⟩ :=
            ih (errs ++ [(p.name, "Provider not available")]) (fun q hq => h q (by simp [hq]))
          refine ⟨(p.name, "Provider not available") :: tail, ?_, by simp [h2]⟩
          simp only [streamAux, hav, if_false, Bool.false_eq_true]
          rw [h1]
          simp
    intro ps h
    obtain ⟨tail, h1, h2⟩ := aux ps.length ps [] h
    exact ⟨_, by simpa using h1, by simpa using h2⟩

/-- Witness for C3: a provider that yields two fragments then fails, followed
by one that completes with one fragment: the caller observes all three
fragments in order; and a chain of two never-completing providers ends in an
aggregate error with two entries. -/
theorem cl_C3_stream_partial_and_all_fail_witness :
    FallbackChain.stream
        [⟨"a:m", true, fun _ => .failure "x", ["He", "llo"], .failure "cut"⟩,
         ⟨"b:m", true, fun _ => .failure "x", ["Bye"], .complete⟩] =
      (["He", "llo", "Bye"], .ok ()) ∧
    ∃ e : AllProvidersFailedError,
      (FallbackChain.stream
          [⟨"a:m", true, fun _ => .failure "x", ["He"], .failure "cut"⟩,
           ⟨"c:m", false, fun _ => .failure "x", [], .complete⟩]).2 = .error e ∧
      e.errors.length = 2 := by
  constructor
  · have h := cl_C3_stream_partial_and_all_fail.1
      ⟨"a:m", true, fun _ => .failure "x", ["He", "llo"], .failure "cut"⟩
      [⟨"b:m", true, fun _ => .failure "x", ["Bye"], .complete⟩]
      "cut" 2 [] rfl rfl
    exact h.trans (by simp [streamAux])
  · exact cl_C3_stream_partial_and_all_fail.2
      [⟨"a:m", true, fun _ => .failure "x", ["He"], .failure "cut"⟩,
       ⟨"c:m", false, fun _ => .failure "x", [], .complete⟩]
      (by
        intro p hp
        simp at hp
        rcases hp with h | h <;> subst h <;> intro hav <;> simp at hav ⊢)

/-- C4: an available provider that hits a rate limit on its first call is
called exactly once with no inter-retry delay, its failure is recorded as
`"Rate limited: ..."`, and the chain immediately continues with the remaining
providers. -/
theorem cl_C4_rate_limit_no_retry (p : Provider) (rest : List Provider)
    (maxRetries : Nat) (m : String)
    (hav : p.avail = true) (hrl : p.genBehavior 0 = .rateLimited m) :
    FallbackChain.generate (p :: rest) maxRetries =
      ((generateAux maxRetries (rest.length + 1) rest
          [(p.name, "Rate limited: " ++ m)]).1,
       .tried p.name 1 0 ::
         (generateAux maxRetries (rest.length + 1) rest
            [(p.name, "Rate limited: " ++ m)]).2) := by
  unfold FallbackChain.generate
  simp [generateAux, hav, tryAttempts, hrl]

/-- Witness for C4: a rate-limited provider followed by a succeeding one:
exactly one call, no sleep, then the next provider answers. -/
theorem cl_C4_rate_limit_no_retry_witness :
    FallbackChain.generate
        [⟨"rl:model", true, fun _ => .rateLimited "slow", [], .complete⟩,
         ⟨"ok:model", true, fun _ => .success ⟨"r", "m"⟩, [], .complete⟩] 5 =
      (.ok ⟨"r", "m"⟩, [.tried "rl:model" 1 0, .tried "ok:model" 1 0]) := by
  have h := cl_C4_rate_limit_no_retry
    ⟨"rl:model", true, fun _ => .rateLimited "slow", [], .complete⟩
    [⟨"ok:model", true, fun _ => .success ⟨"r", "m"⟩, [], .complete⟩]
    5 "slow" rfl rfl
  rw [h]
  simp [generateAux, tryAttempts]

/-! ## `app/services/dialog/intents.py`: intent detection

Strings are processed at the character-list level so that every operation is
kernel-computable.  `Char.toLower` models Python `str.lower`, and whitespace
trimming models Python `str.strip` (identical on ASCII input). -/

/-- Python `min` on two rationals: the first argument when they compare
less-or-equal, else the second. -/
def pyMin (a b : ℚ) : ℚ := if a ≤ b then a else b

/-- Drop leading whitespace characters. -/
def dropLeadingWs : List Char → List Char
  | [] => []
  | c :: cs => if c.isWhitespace then dropLeadingWs cs else c :: cs

/-- Python `str.strip` on a character list: drop whitespace at both ends. -/
def pyStripChars (cs : List Char) : List Char :=
  ((dropLeadingWs ((dropLeadingWs cs).reverse)).reverse)

/-- Python `message.lower().strip()` (intents.py line 149). -/
def pyLowerStrip (s : String) : List Char :=
  pyStripChars (s.data.map Char.toLower)

/-- Python substring containment `p in s` on character lists. -/
def isInfixB (p : List Char) : List Char → Bool
  | [] => p.isEmpty
  | c :: t => p.isPrefixOf (c :: t) || isInfixB p t

/-- `Intent` (intents.py lines 14-52). -/
inductive Intent where
  | GENERAL | GREETING
  | ONBOARDING | PROFILE_SETUP
  | GOAL_DISCOVERY | GOAL_CREATE | GOAL_UPDATE | GOAL_STATUS
  | PLAN_EXPLANATION | PLAN_WHATIF
  | CHECKIN | PROGRESS_UPDATE
  | EDUCATION | EXPLAIN_CONCEPT
  | ACTION_SETUP | NUDGE
  | HELP | FEEDBACK | GOODBYE
  deriving Repr, DecidableEq, Fintype

/-- `IntentMatch` (intents.py lines 55-67); `extracted_entities` is always
the empty dict in `detect` and is omitted. -/
structure IntentMatch where
  intent : Intent
  confidence : ℚ
  deriving Repr, DecidableEq

/-- `IntentDetector.PATTERNS` (intents.py lines 79-137), in declaration
order. -/
def PATTERNS : List (Intent × List String) := [
  (.GREETING, ["hello", "hi", "hey", "good morning", "good afternoon",
    "good evening", "howdy", "what\x27s up", "sup"]),
  (.GOODBYE, ["bye", "goodbye", "see you", "later", "thanks", "thank you",
    "that\x27s all", "done", "exit", "quit"]),
  (.HELP, ["help", "how do i", "how can i", "what can you do",
    "confused", "don\x27t understand", "explain"]),
  (.GOAL_DISCOVERY, ["goal", "goals", "want to save", "want to pay",
    "trying to", "my target", "achieve", "planning to",
    "financial goal", "set a goal"]),
  (.GOAL_CREATE, ["create goal", "new goal", "add goal", "set goal",
    "start saving", "start paying"]),
  (.GOAL_STATUS, ["my goals", "goal progress", "how am i doing",
    "on track", "goal status", "check goal"]),
  (.PLAN_EXPLANATION, ["my plan", "explain plan", "show plan", "what\x27s my plan",
    "how much should i", "recommendation", "suggest"]),
  (.PLAN_WHATIF, ["what if", "if i", "what happens", "scenario",
    "could i", "would it work", "alternative"]),
  (.CHECKIN, ["check in", "checkin", "weekly check", "how was my week",
    "update progress", "weekly update"]),
  (.PROGRESS_UPDATE, ["made a payment", "transferred", "saved", "paid off",
    "update balance", "progress update"]),
  (.EDUCATION, ["what is", "explain", "teach me", "learn about",
    "how does", "difference between", "meaning of"]),
  (.ACTION_SETUP, ["set up transfer", "automate", "automatic", "schedule",
    "recurring", "remind me"]),
  (.ONBOARDING, ["just started", "new here", "getting started",
    "first time", "how to start", "begin"]),
  (.PROFILE_SETUP, ["my income", "my expenses", "i make", "i spend",
    "my salary", "update profile"])]

/-- Python `sum(1 for p in patterns if p in message_lower)`. -/
def matchCount (ml : List Char) (ps : List String) : Nat :=
  (ps.filter (fun p => isInfixB p.data ml)).length

/-- Python `min(match_count / len(patterns) * 2, 1.0)` (intents.py
line 158), in exact rational arithmetic. -/
def rawConfidence (mc n : Nat) : ℚ := pyMin ((mc : ℚ) / (n : ℚ) * 2) 1

/-- The scored-intents list built by `detect` (intents.py lines 152-159):
one entry per intent with a positive match count, in `PATTERNS` order. -/
def scoresFor (msg : String) : List (Intent × ℚ) :=
  let ml := pyLowerStrip msg
  PATTERNS.filterMap (fun ip =>
    let mc := matchCount ml ip.2
    if 0 < mc then some (ip.1, rawConfidence mc ip.2.length) else none)

/-- Head of the stable descending sort of `detect` (lines 162-165): the first
entry attaining the maximal confidence. -/
def pickBest : List (Intent × ℚ) → Option (Intent × ℚ)
  | [] => none
  | x :: xs => some (xs.foldl (fun best y => if best.2 < y.2 then y else best) x)

/-- `IntentDetector.detect` (intents.py lines 139-177). -/
def IntentDetector.detect (msg : String) : IntentMatch :=
  match pickBest (scoresFor msg) with
  | some ic => ⟨ic.1, ic.2⟩
  | none => ⟨.GENERAL, 1/2⟩

/-- Score a single intent on a message: the confidence `detect` would
associate with it (`0` when it has no pattern entry or no match). -/
def intentScore (msg : String) (i : Intent) : ℚ :=
  match PATTERNS.find? (fun ip => ip.1 == i) with
  | some ip =>
    let mc := matchCount (pyLowerStrip msg) ip.2
    if 0 < mc then rawConfidence mc ip.2.length else 0
  | none => 0

/-- `IntentDetector.get_intent_for_prompt` (intents.py lines 205-238). -/
def get_intent_for_prompt : Intent → String
  | .GENERAL => "general"
  | .GREETING => "general"
  | .ONBOARDING => "onboarding"
  | .PROFILE_SETUP => "onboarding"
  | .GOAL_DISCOVERY => "goal_discovery"
  | .GOAL_CREATE => "goal_discovery"
  | .GOAL_UPDATE => "goal_discovery"
  | .GOAL_STATUS => "general"
  | .PLAN_EXPLANATION => "plan_explanation"
  | .PLAN_WHATIF => "plan_explanation"
  | .CHECKIN => "checkin"
  | .PROGRESS_UPDATE => "checkin"
  | .EDUCATION => "general"
  | .EXPLAIN_CONCEPT => "general"
  | .ACTION_SETUP => "general"
  | .NUDGE => "nudge_generation"
  | .HELP => "general"
  | .FEEDBACK => "general"
  | .GOODBYE => "general"

/-! ### Lemmas about intent detection -/

/-- Each entry of `PATTERNS` is the first (and only) entry for its key. -/
theorem PATTERNS_find_self :
    ∀ x ∈ PATTERNS, PATTERNS.find? (fun ip => ip.1 == x.1) = some x := by
  intro x hx
  fin_cases hx <;> rfl

/-- The initial element never exceeds the best-score fold. -/
theorem bestFold_init_le (xs : List (Intent × ℚ)) :
    ∀ x : Intent × ℚ,
      x.2 ≤ (xs.foldl (fun best y => if best.2 < y.2 then y else best) x).2 := by
  induction xs with
  | nil => exact fun x => le_refl _
  | cons z zs ih =>
    intro x
    refine le_trans ?_ (ih (if x.2 < z.2 then z else x))
    by_cases h : x.2 < z.2 <;> simp [h]
    exact le_of_lt h

/-- Every listed element is bounded by the best-score fold. -/
theorem bestFold_mem_le (xs : List (Intent × ℚ)) :
    ∀ (x y : Intent × ℚ), y ∈ xs →
      y.2 ≤ (xs.foldl (fun best y => if best.2 < y.2 then y else best) x).2 := by
  induction xs with
  | nil => intro x y hy; cases hy
  | cons z zs ih =>
    intro x y hy
    rcases List.mem_cons.mp hy with h | h
    · subst h
      refine le_trans ?_ (bestFold_init_le zs (if x.2 < y.2 then y else x))
      by_cases h : x.2 < y.2
      · simp [h]
      · simp [h]
        exact le_of_not_lt h
    · exact ih _ y h

/-- The best-score fold returns a listed element. -/
theorem bestFold_mem (xs : List (Intent × ℚ)) :
    ∀ x : Intent × ℚ,
      (xs.foldl (fun best y => if best.2 < y.2 then y else best) x) ∈ x :: xs := by
  induction xs with
  | nil => intro x; simp
  | cons z zs ih =>
    intro x
    have := ih (if x.2 < z.2 then z else x)
    rcases List.mem_cons.mp this with h | h
    · rw [List.foldl_cons, h]
      by_cases hc : x.2 < z.2 <;> simp [hc]
    · simp [List.foldl_cons, List.mem_cons.mpr (Or.inr (List.mem_cons.mpr (Or.inr h)))]

/-- `pickBest` of a nonempty list returns a member ... -/
theorem pickBest_mem {l : List (Intent × ℚ)} {b : Intent × ℚ}
    (h : pickBest l = some b) : b ∈ l := by
  cases l with
  | nil => cases h
  | cons x xs =>
    simp only [pickBest, Option.some.injEq] at h
    subst h
    exact bestFold_mem xs x

/-- ... that bounds every member. -/
theorem pickBest_ge {l : List (Intent × ℚ)} {b : Intent × ℚ}
    (h : pickBest l = some b) : ∀ y ∈ l, y.2 ≤ b.2 := by
  cases l with
  | nil => cases h
  | cons x xs =>
    simp only [pickBest, Option.some.injEq] at h
    subst h
    intro y hy
    rcases List.mem_cons.mp hy with h | h
    · subst h; exact bestFold_init_le xs y
    · exact bestFold_mem_le xs x y h

/-- Characterization of the scored-intents list. -/
theorem mem_scoresFor {msg : String} {i : Intent} {c : ℚ} :
    (i, c) ∈ scoresFor msg ↔
      ∃ ps, (i, ps) ∈ PATTERNS ∧ 0 < matchCount (pyLowerStrip msg) ps ∧
        c = rawConfidence (matchCount (pyLowerStrip msg) ps) ps.length := by
  constructor
  · intro h
    simp only [scoresFor, List.mem_filterMap] at h
    obtain ⟨ip, hmem, heq⟩ := h
    by_cases hc : 0 < matchCount (pyLowerStrip msg) ip.2
    · simp only [hc, if_pos, Option.some.injEq, Prod.mk.injEq] at heq
      exact ⟨ip.2, by rwa [← heq.1], hc, heq.2.symm⟩
    · simp [hc] at heq
  · rintro ⟨ps, hmem, hc, rfl⟩
    simp only [scoresFor, List.mem_filterMap]
    exact ⟨(i, ps), hmem, by simp [hc]⟩

/-- Match counts never exceed the pattern-list length. -/
theorem matchCount_le (ml : List Char) (ps : List String) :
    matchCount ml ps ≤ ps.length :=
  List.length_filter_le _ _

/-- Scores are nonnegative. -/
theorem rawConfidence_nonneg (mc n : Nat) : 0 ≤ rawConfidence mc n := by
  unfold rawConfidence pyMin
  split <;> positivity

/-- A positive match count yields a positive score. -/
theorem rawConfidence_pos (mc n : Nat) (h : 0 < mc) (hn : mc ≤ n) :
    0 < rawConfidence mc n := by
  have hn0 : 0 < n := lt_of_lt_of_le h hn
  unfold rawConfidence pyMin
  have harg : 0 < (mc : ℚ) / (n : ℚ) * 2 := by positivity
  split
  · exact harg
  · norm_num

/-- The detected confidence is never negative. -/
theorem detect_confidence_nonneg (msg : String) :
    0 ≤ (IntentDetector.detect msg).confidence := by
  unfold IntentDetector.detect
  cases hpb : pickBest (scoresFor msg) with
  | none => norm_num
  | some b =>
    obtain ⟨ps, _, _, hb⟩ := mem_scoresFor.mp (by
      have := pickBest_mem hpb
      rwa [show b = (b.1, b.2) from rfl] at this)
    simpa [hb] using rawConfidence_nonneg _ _

/-- The score of one intent, given its `PATTERNS` entry. -/
theorem intentScore_of_mem {i : Intent} {ps : List String}
    (h : (i, ps) ∈ PATTERNS) (msg : String) :
    intentScore msg i =
      if 0 < matchCount (pyLowerStrip msg) ps then
        rawConfidence (matchCount (pyLowerStrip msg) ps) ps.length
      else 0 := by
  unfold intentScore
  rw [PATTERNS_find_self (i, ps) h]

/-! ### Claim theorem for the intent detector -/

/-- C5: the detector is a pure function of the text; every intent with a
matching trigger phrase scores `min(matchCount * 2 / patternCount, 1)`; the
returned intent attains the maximal score with its own confidence; with no
match at all the result is `GENERAL` at exactly `0.5`; and `"hello there!"`
is detected as `GREETING` with positive confidence. -/
theorem cl_C5_intent_detection :
    (∀ (msg : String) (i : Intent) (ps : List String), (i, ps) ∈ PATTERNS →
      0 < matchCount (pyLowerStrip msg) ps →
      intentScore msg i =
        min (((matchCount (pyLowerStrip msg) ps : ℚ) * 2) / (ps.length : ℚ)) 1) ∧
    (∀ (msg : String) (i : Intent),
      intentScore msg i ≤ (IntentDetector.detect msg).confidence) ∧
    (∀ msg : String, (∃ i, 0 < intentScore msg i) →
      (IntentDetector.detect msg).confidence =
        intentScore msg (IntentDetector.detect msg).intent) ∧
    (∀ msg : String, (∀ i, intentScore msg i = 0) →
      IntentDetector.detect msg = ⟨.GENERAL, 1 / 2⟩) ∧
    (IntentDetector.detect "hello there!").intent = .GREETING ∧
    0 < (IntentDetector.detect "hello there!").confidence := by
  refine ⟨?_, ?_, ?_, ?_, ?_, ?_⟩
  · intro msg i ps hmem hpos
    rw [intentScore_of_mem hmem, if_pos hpos]
    unfold rawConfidence pyMin
    rw [div_mul_eq_mul_div, min_def]
  · intro msg i
    unfold intentScore
    cases hf : PATTERNS.find? (fun ip => ip.1 == i) with
    | none => exact detect_confidence_nonneg msg
    | some ip =>
      have hkey : ip.1 = i := by
        have := List.find?_some hf
        simpa using this
      have hmem : ip ∈ PATTERNS := List.mem_of_find?_eq_some hf
      by_cases hc : 0 < matchCount (pyLowerStrip msg) ip.2
      · simp only [hc, if_pos]
        have hsc : (i, rawConfidence (matchCount (pyLowerStrip msg) ip.2) ip.2.length) ∈
            scoresFor msg := by
          refine mem_scoresFor.mpr ⟨ip.2, ?_, hc, rfl⟩
          rwa [← hkey]
        cases hpb : pickBest (scoresFor msg) with
        | none =>
          cases l : scoresFor msg with
          | nil => rw [l] at hsc; cases hsc
          | cons a as => rw [l] at hpb; simp [pickBest] at hpb
        | some b =>
          have := pickBest_ge hpb _ hsc
          simpa [IntentDetector.detect, hpb] using this
      · simp only [hc, if_neg, ite_false]
        exact detect_confidence_nonneg msg
  · intro msg ⟨i, hi⟩
    have hmc : ∃ ps, (i, ps) ∈ PATTERNS ∧ 0 < matchCount (pyLowerStrip msg) ps := by
      cases hf : PATTERNS.find? (fun ip => ip.1 == i) with
      | none => simp [intentScore, hf] at hi
      | some ip =>
        have hkey : ip.1 = i := by simpa using List.find?_some hf
        have hmem : (i, ip.2) ∈ PATTERNS := by
          rw [← hkey]
          simpa using List.mem_of_find?_eq_some hf
        rw [intentScore_of_mem hmem] at hi
        by_cases hc : 0 < matchCount (pyLowerStrip msg) ip.2
        · exact ⟨ip.2, hmem, hc⟩
        · rw [if_neg hc] at hi; norm_num at hi
    obtain ⟨ps, hmem, hc⟩ := hmc
    have hne : scoresFor msg ≠ [] := by
      intro hl
      have : (i, rawConfidence (matchCount (pyLowerStrip msg) ps) ps.length) ∈
          scoresFor msg := mem_scoresFor.mpr ⟨ps, hmem, hc, rfl⟩
      rw [hl] at this
      cases this
    cases hpb : pickBest (scoresFor msg) with
    | none =>
      cases l : scoresFor msg with
      | nil => exact absurd l hne
      | cons a as => rw [l] at hpb; simp [pickBest] at hpb
    | some b =>
      have hbm : (b.1, b.2) ∈ scoresFor msg := by
        simpa using pickBest_mem hpb
      obtain ⟨ps', hmem', hc', hb2⟩ := mem_scoresFor.mp hbm
      have : intentScore msg b.1 = b.2 := by
        rw [intentScore_of_mem hmem', if_pos hc', hb2]
      simp [IntentDetector.detect, hpb, this]
  · intro msg h
    have hnil : scoresFor msg = [] := by
      unfold scoresFor
      rw [List.filterMap_eq_nil_iff]
      intro ip hip
      by_cases hc : 0 < matchCount (pyLowerStrip msg) ip.2
      · exfalso
        have hscore : intentScore msg ip.1 =
            rawConfidence (matchCount (pyLowerStrip msg) ip.2) ip.2.length := by
          rw [intentScore_of_mem (show (ip.1, ip.2) ∈ PATTERNS from hip), if_pos hc]
        have hpos := rawConfidence_pos _ _ hc (matchCount_le _ _)
        rw [← hscore, h ip.1] at hpos
        exact lt_irrefl _ hpos
      · simp [hc]
    simp [IntentDetector.detect, hnil, pickBest]
  · rfl
  · show 0 < (IntentDetector.detect "hello there!").confidence
    have : IntentDetector.detect "hello there!" = ⟨.GREETING, rawConfidence 1 9⟩ := rfl
    rw [this]
    norm_num [rawConfidence, pyMin]

/-- Witness for C5: a message matching nothing makes every intent score zero
and is classified as `GENERAL` with confidence one half. -/
theorem cl_C5_intent_detection_witness :
    (∀ i, intentScore "zzz" i = 0) ∧
    IntentDetector.detect "zzz" = ⟨.GENERAL, 1 / 2⟩ :=
  ⟨by decide, cl_C5_intent_detection.2.2.2.1 "zzz" (by decide)⟩

/-! ## `app/llm/prompts/manager.py`: prompt templates

Template text is processed by a model of the subset of Python `str.format`
syntax the templates use: literal text, doubled braces as escapes, and simple
named replacement fields (no conversions, format specs, attribute or index
access). -/

/-- `PromptTemplate` (manager.py lines 23-74). -/
structure PromptTemplate where
  name : String
  description : String
  system_prompt : String
  intents : List (String × String)
  deriving Repr, DecidableEq

/-- The opening-brace character of a replacement field. -/
def lbrace : Char := '\x7b'

/-- The closing-brace character of a replacement field. -/
def rbrace : Char := '\x7d'

/-- One parsed piece of a format string: a literal character or a named
replacement field. -/
inductive Seg where
  | lit (c : Char)
  | ph (name : String)
  deriving Repr, DecidableEq

/-- Parser for the modelled `str.format` subset.  `none` stands for the
`ValueError` Python raises on a malformed format string; field syntax outside
the subset (conversions, specs, attribute or index access, auto-numbering) is
also mapped to `none`.  `inField` and `acc` carry a partially read field
name; `sacc` accumulates parsed segments in reverse. -/
def parseFmtAux : Bool → List Char → List Seg → List Char → Option (List Seg)
  | false, _, sacc, [] => some sacc.reverse
  | true, _, _, [] => none
  | false, acc, sacc, c :: rest =>
    if c = lbrace then
      match rest with
      | [] => none
      | c2 :: rest2 =>
        if c2 = lbrace then parseFmtAux false acc (.lit lbrace :: sacc) rest2
        else parseFmtAux true [] sacc (c2 :: rest2)
    else if c = rbrace then
      match rest with
      | [] => none
      | c2 :: rest2 =>
        if c2 = rbrace then parseFmtAux false acc (.lit rbrace :: sacc) rest2
        else none
    else parseFmtAux false acc (.lit c :: sacc) rest
  | true, acc, sacc, c :: rest =>
    if c = rbrace then
      if acc.isEmpty then none
      else parseFmtAux false [] (.ph (String.mk acc.reverse) :: sacc) rest
    else if c = lbrace ∨ c = ':' ∨ c = '!' ∨ c = '.' ∨ c = '[' then none
    else parseFmtAux true (c :: acc) sacc rest

/-- Parse a format string into segments. -/
def parseFmt (s : String) : Option (List Seg) :=
  parseFmtAux false [] [] s.data

/-- Python dictionary lookup on an association list (first match wins). -/
def lookupVal (vals : List (String × String)) (n : String) : Option String :=
  (vals.find? (fun kv => kv.1 == n)).map (·.2)

/-- Python `self.system_prompt.format(**context)` over parsed segments:
substitute each field, failing with the name of the first missing key
(`KeyError`). -/
def strictFormat (vals : List (String × String)) : List Seg → Except String String
  | [] => .ok ""
  | .lit c :: rest => (strictFormat vals rest).map (fun s => String.mk [c] ++ s)
  | .ph n :: rest =>
    match lookupVal vals n with
    | some v => (strictFormat vals rest).map (fun s => v ++ s)
    | none => .error n

/-- Python `self.system_prompt.format_map(DefaultDict(context))`
(manager.py lines 60 and 77-81): a missing key renders back as its own
placeholder token. -/
def defaultFormat (vals : List (String × String)) : List Seg → String
  | [] => ""
  | .lit c :: rest => String.mk [c] ++ defaultFormat vals rest
  | .ph n :: rest =>
    (match lookupVal vals n with
     | some v => v
     | none => String.mk [lbrace] ++ n ++ String.mk [rbrace]) ++ defaultFormat vals rest

/-- `PromptTemplate.render` (manager.py lines 42-60): an empty context
returns the raw template; otherwise `format` is attempted and a `KeyError`
falls back to `format_map` with the placeholder-preserving dictionary.
`Except Unit` carries the `ValueError` a malformed template would raise. -/
def PromptTemplate.render (t : PromptTemplate) (context : List (String × String)) :
    Except Unit String :=
  if context.isEmpty then .ok t.system_prompt
  else
    match parseFmt t.system_prompt with
    | none => .error ()
    | some segs =>
      match strictFormat context segs with
      | .ok s => .ok s
      | .error _ => .ok (defaultFormat context segs)

/-- Built-in template "general" from `PromptManager.DEFAULT_PROMPTS`. -/
def generalTemplate : PromptTemplate :=
  ⟨"general", "General financial coaching conversation",
   "You are FinCred, an empathetic and knowledgeable AI financial coach.\nYour role is to help users achieve their financial goals through personalized guidance, education, and behavioral support.\n\n## Your Personality\n- Supportive and encouraging, never judgmental\n- Clear and practical in explanations\n- Focused on actionable next steps\n- Aware of emotional aspects of money management\n\n## User Context\n\x7bcontext\x7d\n\n## Guidelines\n1. Always acknowledge the user\x27s current situation\n2. Provide specific, actionable advice when possible\n3. Explain financial concepts in simple terms\n4. Celebrate progress, no matter how small\n5. When discussing numbers, use the user\x27s actual data\n6. For complex decisions, suggest breaking them into steps\n\n## Important\n- You provide educational guidance, not professional financial advice\n- Never recommend specific stocks, funds, or financial products\n- Encourage users to consult professionals for complex situations\n- Be honest about limitations and uncertainties",
   [("greeting", "Start with a warm, personalized greeting based on the user context.")]⟩

/-- Built-in template "onboarding" from `PromptManager.DEFAULT_PROMPTS`. -/
def onboardingTemplate : PromptTemplate :=
  ⟨"onboarding", "Onboarding flow for new users",
   "You are FinCred, helping a new user get started with their financial journey.\nGuide them through setting up their profile, understanding their financial situation, and identifying their goals.\n\n## Your Approach\n- Be warm and welcoming\n- Ask one question at a time\n- Make the process feel conversational, not like a form\n- Validate their answers and respond empathetically\n\n## Current Onboarding Context\n\x7bcontext\x7d\n\n## Steps to Guide\n1. Understand their current financial situation (income, expenses)\n2. Learn about their debts if any\n3. Discover their savings and investments\n4. Help them articulate their financial goals\n5. Understand what challenges they typically face\n\n## Important\n- Don\x27t overwhelm with too many questions at once\n- Acknowledge their responses before asking the next question\n- If they seem hesitant about sharing numbers, reassure them about privacy",
   []⟩

/-- Built-in template "goal_discovery" from `PromptManager.DEFAULT_PROMPTS`. -/
def goal_discoveryTemplate : PromptTemplate :=
  ⟨"goal_discovery", "AI-guided goal discovery conversation",
   "You are FinCred, helping a user discover and clarify their financial goals.\nYour job is to understand their aspirations and help them turn vague desires into specific, achievable goals.\n\n## Your Approach\n- Ask thoughtful, probing questions about what they want to achieve\n- Help them understand the \"why\" behind their goals\n- Make goals specific with target amounts and dates\n- Prioritize goals based on urgency and importance\n\n## User Context\n\x7bcontext\x7d\n\n## Goal Discovery Process\n1. Explore what they want to achieve financially\n2. Understand why this matters to them (motivation)\n3. Help quantify the goal (how much?)\n4. Discuss realistic timelines\n5. Consider potential obstacles\n6. Identify which goals to prioritize\n\n## Goal Types to Consider\n- Debt payoff (student loans, credit cards, etc.)\n- Emergency fund (3-6 months of expenses)\n- Short-term savings (vacation, car, moving)\n- Long-term goals (house down payment, retirement)\n- FIRE goals (financial independence)\n\n## Important\n- Goals should be SMART: Specific, Measurable, Achievable, Relevant, Time-bound\n- Help them feel excited and motivated about their goals\n- If goals conflict, help them think through tradeoffs",
   []⟩

/-- Built-in template "plan_explanation" from `PromptManager.DEFAULT_PROMPTS`. -/
def plan_explanationTemplate : PromptTemplate :=
  ⟨"plan_explanation", "Explain financial plans naturally",
   "You are FinCred, explaining a user\x27s personalized financial plan.\nMake the plan clear, actionable, and motivating.\n\n## Your Role\n- Walk through the plan step by step\n- Explain the reasoning behind recommendations\n- Address feasibility honestly but supportively\n- Suggest alternatives if goals seem unrealistic\n\n## User\x27s Financial Plan\n\x7bcontext\x7d\n\n## Explanation Approach\n1. Start with an overview of their situation\n2. Explain each goal\x27s recommended contribution\n3. Discuss feasibility labels (Comfortable/Tight/Unrealistic)\n4. Suggest what-if scenarios if helpful\n5. End with a clear next step\n\n## Important\n- Use their actual numbers\n- Be honest about challenges while staying encouraging\n- If something is unrealistic, explain why and offer alternatives\n- Always provide an actionable next step",
   []⟩

/-- Built-in template "checkin" from `PromptManager.DEFAULT_PROMPTS`. -/
def checkinTemplate : PromptTemplate :=
  ⟨"checkin", "Weekly check-in conversation",
   "You are FinCred, conducting a friendly weekly check-in with the user.\nYour goal is to understand their progress, provide encouragement, and help them stay on track.\n\n## Your Approach\n- Be warm and conversational\n- Celebrate wins, no matter how small\n- Be empathetic about setbacks\n- Help problem-solve if they\x27re struggling\n\n## User Context\n\x7bcontext\x7d\n\n## Check-in Flow\n1. Ask how their week went with their financial goals\n2. Understand if they completed planned actions\n3. Explore any challenges they faced\n4. Provide encouragement or helpful suggestions\n5. Set intentions for the coming week\n\n## Responses to Progress\n- On track: Celebrate! Reference their specific achievements.\n- Slightly behind: Acknowledge difficulty, explore reasons gently, suggest adjustments.\n- Off track: Be empathetic, help identify root causes, create a recovery plan.\n\n## Important\n- Never be judgmental about setbacks\n- Focus on the process, not just outcomes\n- Help them learn from both successes and challenges\n- Keep them motivated for the next week",
   []⟩

/-- Built-in template "nudge_generation" from `PromptManager.DEFAULT_PROMPTS`. -/
def nudge_generationTemplate : PromptTemplate :=
  ⟨"nudge_generation", "Generate personalized nudge content",
   "You are FinCred, crafting a personalized nudge message for a user.\nThe nudge should be brief, motivating, and actionable.\n\n## Nudge Context\n\x7bcontext\x7d\n\n## Nudge Guidelines\n- Keep it short (1-3 sentences max)\n- Be personally relevant (use their goals, data)\n- Include a clear action or reminder\n- Vary tone based on user\x27s situation\n\n## Nudge Types\n- Pre-transfer reminder: Remind them about upcoming planned action\n- Weekly summary: Brief overview of progress and week ahead\n- Check-in reminder: Gentle prompt to complete their check-in\n- Motivation boost: Encouraging message about their progress\n\n## Important\n- Reference their specific goals or \"why\" when possible\n- Never be guilt-inducing or pushy\n- Make them feel supported, not nagged",
   []⟩

/-- `PromptManager.DEFAULT_PROMPTS` (manager.py lines 100-289), in
declaration order.  The optional YAML template directory is absent from the
repository, so the registry holds exactly these built-ins. -/
def DEFAULT_PROMPTS : List (String × PromptTemplate) := [
  ("general", generalTemplate),
  ("onboarding", onboardingTemplate),
  ("goal_discovery", goal_discoveryTemplate),
  ("plan_explanation", plan_explanationTemplate),
  ("checkin", checkinTemplate),
  ("nudge_generation", nudge_generationTemplate)]

/-- `PromptManager.get_template` (manager.py lines 321-339): the name of a
missing template is carried as the `PromptTemplateError` payload. -/
def PromptManager.get_template (name : String) : Except String PromptTemplate :=
  match DEFAULT_PROMPTS.find? (fun kv => kv.1 == name) with
  | some kv => .ok kv.2
  | none => .error name

/-- Python `s.lower()`. -/
def pyLowerStr (s : String) : String := String.mk (s.data.map Char.toLower)

/-- The `intent_map` of `PromptManager._map_intent_to_template` (manager.py
lines 380-392). -/
def INTENT_MAP : List (String × String) := [
  ("general", "general"),
  ("coaching", "general"),
  ("onboarding", "onboarding"),
  ("goal_discovery", "goal_discovery"),
  ("goals", "goal_discovery"),
  ("plan_explanation", "plan_explanation"),
  ("planning", "plan_explanation"),
  ("plan", "plan_explanation"),
  ("checkin", "checkin"),
  ("check-in", "checkin"),
  ("nudge", "nudge_generation")]

/-- `PromptManager._map_intent_to_template` (manager.py lines 369-394). -/
def map_intent_to_template (intent : String) : String :=
  (lookupVal INTENT_MAP (pyLowerStr intent)).getD "general"

/-- Python `context or "No additional context available"`: an absent or
empty string falls back to the default (string truthiness). -/
def pyStrOr (c : Option String) (dflt : String) : String :=
  match c with
  | some s => if s = "" then dflt else s
  | none => dflt

/-- `PromptManager.get_system_prompt` (manager.py lines 341-367): map the
intent to a template name, fall back to the general template when absent, and
render with the context value. -/
def get_system_prompt (intent : String) (context : Option String) :
    Except Unit String :=
  let template_name := map_intent_to_template intent
  let t := match PromptManager.get_template template_name with
    | .ok t => t
    | .error _ => generalTemplate
  t.render [("context", pyStrOr context "No additional context available")]

/-! ### Lemmas about template rendering -/

/-- When the strict pass succeeds (no key missing), the fallback pass
produces the same string. -/
theorem strictFormat_ok_eq_default (vals : List (String × String)) :
    ∀ segs s, strictFormat vals segs = .ok s → defaultFormat vals segs = s := by
  intro segs
  induction segs with
  | nil => intro s h; simp only [strictFormat] at h; cases h; rfl
  | cons sg rest ih =>
    intro s h
    cases sg with
    | lit c =>
      simp only [strictFormat] at h
      cases hr : strictFormat vals rest with
      | ok s2 =>
        rw [hr] at h
        simp only [Except.map] at h
        cases h
        simp [defaultFormat, ih s2 hr]
      | error e => rw [hr] at h; simp [Except.map] at h
    | ph n =>
      simp only [strictFormat] at h
      cases hl : lookupVal vals n with
      | some v =>
        rw [hl] at h
        cases hr : strictFormat vals rest with
        | ok s2 =>
          rw [hr] at h
          simp only [Except.map] at h
          cases h
          simp [defaultFormat, hl, ih s2 hr]
        | error e => rw [hr] at h; simp [Except.map] at h
      | none => rw [hl] at h; cases h

/-- Rendering with a nonempty context and a parseable template never raises
and produces exactly the fallback-pass output: supplied placeholders are
substituted, missing ones are kept. -/
theorem render_of_parse (t : PromptTemplate) (vals : List (String × String))
    (segs : List Seg) (hp : parseFmt t.system_prompt = some segs)
    (hne : vals ≠ []) :
    t.render vals = .ok (defaultFormat vals segs) := by
  unfold PromptTemplate.render
  rw [if_neg (by simpa [List.isEmpty_iff] using hne), hp]
  cases hs : strictFormat vals segs with
  | ok s => simp [hs, strictFormat_ok_eq_default vals segs s hs]
  | error e => simp [hs]

/-- A placeholder with no supplied value survives the fallback pass as its
own token. -/
theorem defaultFormat_intact (vals : List (String × String)) :
    ∀ (segs : List Seg) (n : String), Seg.ph n ∈ segs → lookupVal vals n = none →
      ∃ pre post, (defaultFormat vals segs).data =
        pre ++ (lbrace :: (n.data ++ [rbrace])) ++ post := by
  intro segs
  induction segs with
  | nil => intro n hn; cases hn
  | cons sg rest ih =>
    intro n hn hmiss
    rcases List.mem_cons.mp hn with h | h
    · subst h
      refine ⟨[], (defaultFormat vals rest).data, ?_⟩
      simp [defaultFormat, hmiss, lbrace, rbrace]
    · obtain ⟨pre, post, hpp⟩ := ih n h hmiss
      cases sg with
      | lit c =>
        refine ⟨c :: pre, post, ?_⟩
        simp [defaultFormat, hpp]
      | ph m =>
        cases hl : lookupVal vals m with
        | some v =>
          refine ⟨v.data ++ pre, post, ?_⟩
          simp [defaultFormat, hl, hpp]
        | none =>
          refine ⟨lbrace :: (m.data ++ [rbrace]) ++ pre, post, ?_⟩
          simp [defaultFormat, hl, hpp, lbrace, rbrace]

/-! ### Claim theorem for template rendering -/

/-- C6: rendering never raises on missing values: with a nonempty value map
and a parseable template the result substitutes supplied placeholders and
keeps each unsupplied placeholder visibly intact as its own token; an empty
value map returns the template text unchanged, in particular for the
built-in general template. -/
theorem cl_C6_render_missing_values :
    (∀ (t : PromptTemplate) (vals : List (String × String)) (segs : List Seg),
      parseFmt t.system_prompt = some segs → vals ≠ [] →
      t.render vals = .ok (defaultFormat vals segs)) ∧
    (∀ (t : PromptTemplate) (vals : List (String × String)) (segs : List Seg)
       (n : String),
      parseFmt t.system_prompt = some segs → vals ≠ [] →
      Seg.ph n ∈ segs → lookupVal vals n = none →
      ∃ out pre post, t.render vals = .ok out ∧
        out.data = pre ++ (lbrace :: (n.data ++ [rbrace])) ++ post) ∧
    (∀ t : PromptTemplate, t.render [] = .ok t.system_prompt) ∧
    PromptManager.get_template "general" = .ok generalTemplate ∧
    generalTemplate.render [] = .ok generalTemplate.system_prompt := by
  refine ⟨?_, ?_, ?_, rfl, rfl⟩
  · exact fun t vals segs hp hne => render_of_parse t vals segs hp hne
  · intro t vals segs n hp hne hmem hmiss
    obtain ⟨pre, post, hpp⟩ := defaultFormat_intact vals segs n hmem hmiss
    exact ⟨defaultFormat vals segs, pre, post, render_of_parse t vals segs hp hne, hpp⟩
  · intro t
    rfl

/-- Witness for C6: a two-placeholder template with only one value supplied
renders without raising, keeps the unsupplied `other` placeholder as its own
token, and the general template renders unchanged on the empty map. -/
theorem cl_C6_render_missing_values_witness :
    parseFmt "Hi \x7bname\x7d, \x7bother\x7d!" =
      some [.lit 'H', .lit 'i', .lit ' ', .ph "name", .lit ',', .lit ' ',
            .ph "other", .lit '!'] ∧
    PromptTemplate.render ⟨"t", "", "Hi \x7bname\x7d, \x7bother\x7d!", []⟩
        [("name", "Ada")] =
      .ok (defaultFormat [("name", "Ada")]
        [.lit 'H', .lit 'i', .lit ' ', .ph "name", .lit ',', .lit ' ',
         .ph "other", .lit '!']) ∧
    defaultFormat [("name", "Ada")]
        [.lit 'H', .lit 'i', .lit ' ', .ph "name", .lit ',', .lit ' ',
         .ph "other", .lit '!'] = "Hi Ada, \x7bother\x7d!" ∧
    (∃ out pre post,
      PromptTemplate.render ⟨"t", "", "Hi \x7bname\x7d, \x7bother\x7d!", []⟩
          [("name", "Ada")] = .ok out ∧
      out.data = pre ++ (lbrace :: (("other" : String).data ++ [rbrace])) ++ post) := by
  refine ⟨rfl, ?_, by decide, ?_⟩
  · exact cl_C6_render_missing_values.1 ⟨"t", "", "Hi \x7bname\x7d, \x7bother\x7d!", []⟩
      [("name", "Ada")] _ rfl (by simp)
  · exact cl_C6_render_missing_values.2.1 ⟨"t", "", "Hi \x7bname\x7d, \x7bother\x7d!", []⟩
      [("name", "Ada")] _ "other" rfl (by simp) (by decide) (by decide)

/-! ## `app/services/dialog/context.py`: the context builder

The storage collaborator is modelled by a record of per-category query
results: `Except` distinguishes a raised exception from returned data.
Amounts are exact rationals.  User and row identifiers are abstracted to
naturals (they are never computed with). -/

/-- One entry of the `active_goals` dict list built from a `Goal` row
(context.py lines 250-260). -/
structure GoalDict where
  name : String
  gtype : String
  target_amount : ℚ
  target_date : Option String
  priority : Option String
  why_text : Option String
  deriving Repr, DecidableEq

/-- The fields of a `CheckIn` row read by the builder. -/
structure CheckinRec where
  mood_score : Nat
  deriving Repr, DecidableEq

/-- The three plan-summary fields copied into the context (context.py
lines 328-332). -/
structure PlanSummary where
  estimated_monthly_surplus : ℚ
  total_required_contributions : ℚ
  buffer_remaining : ℚ
  deriving Repr, DecidableEq

/-- `DialogContext` (context.py lines 24-59) with its field defaults. -/
structure DialogContext where
  user_id : Nat
  user_name : Option String := none
  persona_hint : Option String := none
  monthly_income : Option ℚ := none
  monthly_expenses : Option ℚ := none
  estimated_surplus : Option ℚ := none
  active_goals : List GoalDict := []
  total_goal_target : Option ℚ := none
  total_debt : Option ℚ := none
  debt_count : Nat := 0
  total_savings : Option ℚ := none
  savings_count : Nat := 0
  recent_checkin_mood : Option Nat := none
  days_since_last_checkin : Option Int := none
  plan_summary : Option PlanSummary := none
  deriving Repr, DecidableEq

/-- `Profile` (models/user.py): only `persona_hint` is read. -/
structure Profile where
  persona_hint : Option String
  deriving Repr, DecidableEq

/-- `User` (models/user.py): the fields the dialog subsystem reads. -/
structure UserRec where
  id : Nat
  email : String
  profile : Option Profile
  deriving Repr, DecidableEq

/-- The storage collaborator: what each category query would deliver for the
user, or the exception it would raise.  `goals` and `checkin` carry the rows
the queries would return if the code could reach the database (see
`addGoals`/`addRecentCheckin`). -/
structure UserDb where
  income : Except String (Option ℚ)
  expenses : Except String (Option ℚ)
  goals : Except String (List GoalDict)
  debts : Except String (List ℚ)
  savings : Except String (List ℚ)
  checkin : Except String (Option CheckinRec)
  plan : Except String (Option PlanSummary)
  deriving Repr

/-- Python truthiness of an optional number: `None` and `0` are falsy. -/
def pyTruthyQ : Option ℚ → Bool
  | none => false
  | some v => decide (v ≠ 0)

/-- `user.email.split("@")[0] if user.email else None` (context.py
line 183): an empty email is falsy. -/
def pyUserName (email : String) : Option String :=
  if email = "" then none else some ((email.splitOn "@").headD "")

/-- `ContextBuilder._add_financial_snapshot` (context.py lines 214-238):
income and expenses share one `try` block, so an exception from the income
query also skips the expense query, while an exception from the expense
query leaves an already-set income in place. -/
def addFinancialSnapshot (db : UserDb) (c : DialogContext) : DialogContext :=
  match db.income with
  | .error _ => c
  | .ok incOpt =>
    let c1 := match incOpt with
      | some v => { c with monthly_income := some v }
      | none => c
    match db.expenses with
    | .error _ => c1
    | .ok expOpt =>
      match expOpt with
      | some v => { c1 with monthly_expenses := some v }
      | none => c1

/-- `ContextBuilder._add_goals` (context.py lines 240-267).  The query
orders by `Goal.is_primary`, an attribute the `Goal` model does not define
(its field is `primary_flag`), so building the query raises
`AttributeError` on every call; the handler swallows it and the context is
returned untouched — the database is never consulted. -/
def addGoals (_db : UserDb) (c : DialogContext) : DialogContext := c

/-- `ContextBuilder._add_debts` (context.py lines 269-280). -/
def addDebts (db : UserDb) (c : DialogContext) : DialogContext :=
  match db.debts with
  | .error _ => c
  | .ok ds => { c with debt_count := ds.length, total_debt := some ds.sum }

/-- `ContextBuilder._add_savings` (context.py lines 282-293). -/
def addSavings (db : UserDb) (c : DialogContext) : DialogContext :=
  match db.savings with
  | .error _ => c
  | .ok sv => { c with savings_count := sv.length, total_savings := some sv.sum }

/-- `ContextBuilder._add_recent_checkin` (context.py lines 295-315).  The
query orders by `CheckIn.created_at`, an attribute the `CheckIn` model does
not define (its field is `completed_at`), so every call raises
`AttributeError` internally, the handler swallows it, and the context is
returned untouched. -/
def addRecentCheckin (_db : UserDb) (c : DialogContext) : DialogContext := c

/-- `ContextBuilder._add_plan_summary` (context.py lines 317-336): skipped
unless income and expenses are truthy; a failure of the external planner is
swallowed. -/
def addPlanSummary (db : UserDb) (c : DialogContext) : DialogContext :=
  if pyTruthyQ c.monthly_income && pyTruthyQ c.monthly_expenses then
    match db.plan with
    | .error _ => c
    | .ok (some ps) => { c with plan_summary := some ps }
    | .ok none => c
  else c

/-- Lines 181-188 of `build`: the freshly constructed context with the
profile hint copied in. -/
def initContext (user : UserRec) : DialogContext :=
  let c : DialogContext := { user_id := user.id, user_name := pyUserName user.email }
  match user.profile with
  | some prof => { c with persona_hint := prof.persona_hint }
  | none => c

/-- Lines 205-207 of `build`: the derived surplus, computed only when both
income and expenses are truthy (present and nonzero). -/
def computeSurplus (c : DialogContext) : DialogContext :=
  match c.monthly_income, c.monthly_expenses with
  | some i, some e =>
    if i ≠ 0 ∧ e ≠ 0 then { c with estimated_surplus := some (i - e) } else c
  | _, _ => c

/-- `ContextBuilder.build` (context.py lines 171-212). -/
def ContextBuilder.build (user : UserRec) (db : UserDb) : DialogContext :=
  addPlanSummary db
    (computeSurplus
      (addRecentCheckin db
        (addSavings db
          (addDebts db
            (addGoals db
              (addFinancialSnapshot db (initContext user)))))))

/-! ### Lemmas about the context builder -/

/-- The freshly built context carries only identity fields; everything else
is at its default. -/
theorem initContext_defaults (user : UserRec) :
    (initContext user).monthly_income = none ∧
    (initContext user).monthly_expenses = none ∧
    (initContext user).estimated_surplus = none ∧
    (initContext user).active_goals = [] ∧
    (initContext user).total_goal_target = none ∧
    (initContext user).recent_checkin_mood = none ∧
    (initContext user).days_since_last_checkin = none ∧
    (initContext user).total_debt = none ∧
    (initContext user).debt_count = 0 := by
  rcases h : user.profile with _ | prof <;> simp [initContext, h]

/-- The financial-snapshot step touches only the income and expense
fields. -/
theorem addFinancialSnapshot_preserves (db : UserDb) (c : DialogContext) :
    (addFinancialSnapshot db c).estimated_surplus = c.estimated_surplus ∧
    (addFinancialSnapshot db c).active_goals = c.active_goals ∧
    (addFinancialSnapshot db c).total_goal_target = c.total_goal_target ∧
    (addFinancialSnapshot db c).recent_checkin_mood = c.recent_checkin_mood ∧
    (addFinancialSnapshot db c).days_since_last_checkin = c.days_since_last_checkin ∧
    (addFinancialSnapshot db c).total_debt = c.total_debt ∧
    (addFinancialSnapshot db c).debt_count = c.debt_count ∧
    (addFinancialSnapshot db c).savings_count = c.savings_count ∧
    (addFinancialSnapshot db c).total_savings = c.total_savings := by
  unfold addFinancialSnapshot
  rcases db.income with e | incOpt
  · simp
  · rcases db.expenses with e2 | expOpt
    · rcases incOpt with _ | v <;> simp
    · rcases incOpt with _ | v <;> rcases expOpt with _ | w <;> simp

/-- The debts step touches only the debt fields. -/
theorem addDebts_preserves (db : UserDb) (c : DialogContext) :
    (addDebts db c).monthly_income = c.monthly_income ∧
    (addDebts db c).monthly_expenses = c.monthly_expenses ∧
    (addDebts db c).estimated_surplus = c.estimated_surplus ∧
    (addDebts db c).active_goals = c.active_goals ∧
    (addDebts db c).total_goal_target = c.total_goal_target ∧
    (addDebts db c).recent_checkin_mood = c.recent_checkin_mood ∧
    (addDebts db c).days_since_last_checkin = c.days_since_last_checkin ∧
    (addDebts db c).savings_count = c.savings_count ∧
    (addDebts db c).total_savings = c.total_savings := by
  unfold addDebts
  rcases db.debts with e | ds <;> simp

/-- The savings step touches only the savings fields. -/
theorem addSavings_preserves (db : UserDb) (c : DialogContext) :
    (addSavings db c).monthly_income = c.monthly_income ∧
    (addSavings db c).monthly_expenses = c.monthly_expenses ∧
    (addSavings db c).estimated_surplus = c.estimated_surplus ∧
    (addSavings db c).active_goals = c.active_goals ∧
    (addSavings db c).total_goal_target = c.total_goal_target ∧
    (addSavings db c).recent_checkin_mood = c.recent_checkin_mood ∧
    (addSavings db c).days_since_last_checkin = c.days_since_last_checkin ∧
    (addSavings db c).total_debt = c.total_debt ∧
    (addSavings db c).debt_count = c.debt_count := by
  unfold addSavings
  rcases db.savings with e | sv <;> simp

/-- The plan step touches only the plan-summary field. -/
theorem addPlanSummary_preserves (db : UserDb) (c : DialogContext) :
    (addPlanSummary db c).monthly_income = c.monthly_income ∧
    (addPlanSummary db c).monthly_expenses = c.monthly_expenses ∧
    (addPlanSummary db c).estimated_surplus = c.estimated_surplus ∧
    (addPlanSummary db c).active_goals = c.active_goals ∧
    (addPlanSummary db c).total_goal_target = c.total_goal_target ∧
    (addPlanSummary db c).recent_checkin_mood = c.recent_checkin_mood ∧
    (addPlanSummary db c).days_since_last_checkin = c.days_since_last_checkin ∧
    (addPlanSummary db c).total_debt = c.total_debt ∧
    (addPlanSummary db c).debt_count = c.debt_count ∧
    (addPlanSummary db c).savings_count = c.savings_count ∧
    (addPlanSummary db c).total_savings = c.total_savings := by
  unfold addPlanSummary
  split
  · rcases db.plan with e | pl
    · simp
    · rcases pl with _ | ps <;> simp
  · simp

/-- The surplus step touches only the surplus field. -/
theorem computeSurplus_preserves (c : DialogContext) :
    (computeSurplus c).monthly_income = c.monthly_income ∧
    (computeSurplus c).monthly_expenses = c.monthly_expenses ∧
    (computeSurplus c).active_goals = c.active_goals ∧
    (computeSurplus c).total_goal_target = c.total_goal_target ∧
    (computeSurplus c).recent_checkin_mood = c.recent_checkin_mood ∧
    (computeSurplus c).days_since_last_checkin = c.days_since_last_checkin ∧
    (computeSurplus c).total_debt = c.total_debt ∧
    (computeSurplus c).debt_count = c.debt_count ∧
    (computeSurplus c).savings_count = c.savings_count ∧
    (computeSurplus c).total_savings = c.total_savings := by
  unfold computeSurplus
  rcases hmi : c.monthly_income with _ | i <;> rcases hme : c.monthly_expenses with _ | e
  · simp [hmi, hme]
  · simp [hmi, hme]
  · simp [hmi, hme]
  · simp only [hmi, hme]
    split <;> simp [hmi, hme]

/-- What the surplus step writes. -/
theorem computeSurplus_surplus (c : DialogContext) (h : c.estimated_surplus = none) :
    (computeSurplus c).estimated_surplus =
      match c.monthly_income, c.monthly_expenses with
      | some i, some e => if i ≠ 0 ∧ e ≠ 0 then some (i - e) else none
      | _, _ => none := by
  unfold computeSurplus
  rcases hmi : c.monthly_income with _ | i <;> rcases hme : c.monthly_expenses with _ | e
  · simp [hmi, hme, h]
  · simp [hmi, hme, h]
  · simp [hmi, hme, h]
  · simp only [hmi, hme]
    split <;> rename_i hcond <;> simp [h, hcond]

/-- Surplus behaviour of the tail of the pipeline. -/
theorem build_surplus_general (db : UserDb) (c : DialogContext)
    (h : c.estimated_surplus = none) :
    (addPlanSummary db (computeSurplus c)).estimated_surplus =
      match (addPlanSummary db (computeSurplus c)).monthly_income,
            (addPlanSummary db (computeSurplus c)).monthly_expenses with
      | some i, some e => if i ≠ 0 ∧ e ≠ 0 then some (i - e) else none
      | _, _ => none := by
  obtain ⟨hpi, hpe, hps, _⟩ := addPlanSummary_preserves db (computeSurplus c)
  rw [hps, hpi, hpe]
  obtain ⟨hci, hce, _⟩ := computeSurplus_preserves c
  rw [hci, hce, computeSurplus_surplus c h]

/-! ### Claim theorems for the context builder -/

/-- C8 (amended): the built context carries
`estimated_surplus = income - expenses` exactly when both income and
expenses are present AND nonzero (Python truthiness); when either is absent
or zero, no surplus value is set. -/
theorem cl_C8_surplus_truthiness (user : UserRec) (db : UserDb) :
    (ContextBuilder.build user db).estimated_surplus =
      match (ContextBuilder.build user db).monthly_income,
            (ContextBuilder.build user db).monthly_expenses with
      | some i, some e => if i ≠ 0 ∧ e ≠ 0 then some (i - e) else none
      | _, _ => none := by
  unfold ContextBuilder.build
  simp only [addGoals, addRecentCheckin]
  have h5 : (addSavings db (addDebts db (addFinancialSnapshot db
      (initContext user)))).estimated_surplus = none := by
    rw [(addSavings_preserves db _).2.2.1, (addDebts_preserves db _).2.2.1,
      (addFinancialSnapshot_preserves db _).1]
    exact (initContext_defaults user).2.2.1
  exact build_surplus_general db _ h5

/-- Witness for C8: all query data present and nonzero gives the surplus
difference. -/
theorem cl_C8_surplus_truthiness_witness :
    (ContextBuilder.build ⟨1, "ada@x.io", none⟩
        ⟨.ok (some 5000), .ok (some 3000), .ok [], .ok [], .ok [],
         .ok none, .ok none⟩).estimated_surplus =
      match (ContextBuilder.build ⟨1, "ada@x.io", none⟩
          ⟨.ok (some 5000), .ok (some 3000), .ok [], .ok [], .ok [],
           .ok none, .ok none⟩).monthly_income,
        (ContextBuilder.build ⟨1, "ada@x.io", none⟩
          ⟨.ok (some 5000), .ok (some 3000), .ok [], .ok [], .ok [],
           .ok none, .ok none⟩).monthly_expenses with
      | some i, some e => if i ≠ 0 ∧ e ≠ 0 then some (i - e) else none
      | _, _ => none :=
  cl_C8_surplus_truthiness ⟨1, "ada@x.io", none⟩
    ⟨.ok (some 5000), .ok (some 3000), .ok [], .ok [], .ok [], .ok none, .ok none⟩

/-- Counterexample to C8 as stated: a zero income is present, expenses are
present, yet no surplus is computed (the source tests truthiness, not
presence), so the surplus does not equal `income - expenses`. -/
theorem cl_C8_surplus_truthiness_counterexample :
    (ContextBuilder.build ⟨1, "u@x.io", none⟩
        ⟨.ok (some 0), .ok (some 100), .ok [], .ok [], .ok [],
         .ok none, .ok none⟩).monthly_income = some 0 ∧
    (ContextBuilder.build ⟨1, "u@x.io", none⟩
        ⟨.ok (some 0), .ok (some 100), .ok [], .ok [], .ok [],
         .ok none, .ok none⟩).monthly_expenses = some 100 ∧
    (ContextBuilder.build ⟨1, "u@x.io", none⟩
        ⟨.ok (some 0), .ok (some 100), .ok [], .ok [], .ok [],
         .ok none, .ok none⟩).estimated_surplus = none ∧
    (ContextBuilder.build ⟨1, "u@x.io", none⟩
        ⟨.ok (some 0), .ok (some 100), .ok [], .ok [], .ok [],
         .ok none, .ok none⟩).estimated_surplus ≠ some (0 - 100) := by
  refine ⟨?_, ?_, ?_, ?_⟩ <;>
    simp [ContextBuilder.build, addPlanSummary, computeSurplus, addRecentCheckin,
      addSavings, addDebts, addGoals, addFinancialSnapshot, initContext,
      pyTruthyQ, pyUserName]

/-- C9: the goals and check-in categories are never populated, whatever the
stored data: the two retrieval helpers reference attributes that do not
exist on the models (`Goal.is_primary`, `CheckIn.created_at`), raise
`AttributeError` on every call, and the handlers leave the defaults in
place; the remaining categories are isolated, as the concrete
debts-query-failing evaluation shows (income, expenses, savings populated;
debts fields absent/zero; no exception escapes). -/
theorem cl_C9_goals_checkin_never_populated :
    (∀ (user : UserRec) (db : UserDb),
      (ContextBuilder.build user db).active_goals = [] ∧
      (ContextBuilder.build user db).total_goal_target = none ∧
      (ContextBuilder.build user db).recent_checkin_mood = none ∧
      (ContextBuilder.build user db).days_since_last_checkin = none) ∧
    ((ContextBuilder.build ⟨1, "ada@x.io", none⟩
        ⟨.ok (some 5000), .ok (some 3000),
         .ok [⟨"Emergency fund", "emergency_fund", 10000, some "2026-01-01",
               some "high", none⟩],
         .error "db down", .ok [200, 300], .ok (some ⟨4⟩),
         .ok none⟩).monthly_income = some 5000 ∧
     (ContextBuilder.build ⟨1, "ada@x.io", none⟩
        ⟨.ok (some 5000), .ok (some 3000),
         .ok [⟨"Emergency fund", "emergency_fund", 10000, some "2026-01-01",
               some "high", none⟩],
         .error "db down", .ok [200, 300], .ok (some ⟨4⟩),
         .ok none⟩).monthly_expenses = some 3000 ∧
     (ContextBuilder.build ⟨1, "ada@x.io", none⟩
        ⟨.ok (some 5000), .ok (some 3000),
         .ok [⟨"Emergency fund", "emergency_fund", 10000, some "2026-01-01",
               some "high", none⟩],
         .error "db down", .ok [200, 300], .ok (some ⟨4⟩),
         .ok none⟩).estimated_surplus = some 2000 ∧
     (ContextBuilder.build ⟨1, "ada@x.io", none⟩
        ⟨.ok (some 5000), .ok (some 3000),
         .ok [⟨"Emergency fund", "emergency_fund", 10000, some "2026-01-01",
               some "high", none⟩],
         .error "db down", .ok [200, 300], .ok (some ⟨4⟩),
         .ok none⟩).savings_count = 2 ∧
     (ContextBuilder.build ⟨1, "ada@x.io", none⟩
        ⟨.ok (some 5000), .ok (some 3000),
         .ok [⟨"Emergency fund", "emergency_fund", 10000, some "2026-01-01",
               some "high", none⟩],
         .error "db down", .ok [200, 300], .ok (some ⟨4⟩),
         .ok none⟩).total_savings = some 500 ∧
     (ContextBuilder.build ⟨1, "ada@x.io", none⟩
        ⟨.ok (some 5000), .ok (some 3000),
         .ok [⟨"Emergency fund", "emergency_fund", 10000, some "2026-01-01",
               some "high", none⟩],
         .error "db down", .ok [200, 300], .ok (some ⟨4⟩),
         .ok none⟩).total_debt = none ∧
     (ContextBuilder.build ⟨1, "ada@x.io", none⟩
        ⟨.ok (some 5000), .ok (some 3000),
         .ok [⟨"Emergency fund", "emergency_fund", 10000, some "2026-01-01",
               some "high", none⟩],
         .error "db down", .ok [200, 300], .ok (some ⟨4⟩),
         .ok none⟩).debt_count = 0 ∧
     (ContextBuilder.build ⟨1, "ada@x.io", none⟩
        ⟨.ok (some 5000), .ok (some 3000),
         .ok [⟨"Emergency fund", "emergency_fund", 10000, some "2026-01-01",
               some "high", none⟩],
         .error "db down", .ok [200, 300], .ok (some ⟨4⟩),
         .ok none⟩).active_goals = []) := by
  constructor
  · intro user db
    unfold ContextBuilder.build
    simp only [addGoals, addRecentCheckin]
    obtain ⟨_, _, _, hgP, htP, hmP, hdP, _⟩ :=
      addPlanSummary_preserves db (computeSurplus (addSavings db (addDebts db
        (addFinancialSnapshot db (initContext user)))))
    rw [hgP, htP, hmP, hdP]
    obtain ⟨_, _, hgC, htC, hmC, hdC, _⟩ :=
      computeSurplus_preserves (addSavings db (addDebts db
        (addFinancialSnapshot db (initContext user))))
    rw [hgC, htC, hmC, hdC]
    obtain ⟨_, _, _, hgS, htS, hmS, hdS, _⟩ :=
      addSavings_preserves db (addDebts db (addFinancialSnapshot db (initContext user)))
    rw [hgS, htS, hmS, hdS]
    obtain ⟨_, _, _, hgD, htD, hmD, hdD, _⟩ :=
      addDebts_preserves db (addFinancialSnapshot db (initContext user))
    rw [hgD, htD, hmD, hdD]
    obtain ⟨_, hgF, htF, hmF, hdF, _⟩ :=
      addFinancialSnapshot_preserves db (initContext user)
    rw [hgF, htF, hmF, hdF]
    obtain ⟨_, _, _, hgI, htI, hmI, hdI, _⟩ := initContext_defaults user
    exact ⟨hgI, htI, hmI, hdI⟩
  · refine ⟨?_, ?_, ?_, ?_, ?_, ?_, ?_, ?_⟩ <;>
      simp [ContextBuilder.build, addPlanSummary, computeSurplus, addRecentCheckin,
        addSavings, addDebts, addGoals, addFinancialSnapshot, initContext,
        pyTruthyQ, pyUserName] <;> norm_num

/-! ### `DialogContext.to_prompt_string` (context.py lines 61-131) -/

/-- Round a rational to an integer, ties to even, as Python float formatting
with spec `.0f` does.  (A negative value rounding to zero differs in sign
display: Python prints `-0`; no claim depends on it.) -/
def roundHalfEven (q : ℚ) : Int :=
  let f := ⌊q⌋
  let frac := q - (f : ℚ)
  if frac < 1 / 2 then f
  else if 1 / 2 < frac then f + 1
  else if f % 2 = 0 then f else f + 1

/-- Insert a thousands separator after every third digit, walking the
reversed digit list; `k` counts digits emitted in the current group. -/
def groupRev : Nat → List Char → List Char
  | _, [] => []
  | k, c :: cs => if k = 3 then ',' :: c :: groupRev 1 cs else c :: groupRev (k + 1) cs

/-- Format an integer with thousands separators, as Python `{:,}`. -/
def fmtThousands (n : Int) : String :=
  let body := String.mk ((groupRev 0 (toString n.natAbs).data.reverse).reverse)
  if n < 0 then "-" ++ body else body

/-- Python format spec `,.0f` applied to an exact rational amount. -/
def fmtMoney (q : ℚ) : String := fmtThousands (roundHalfEven q)

/-- Python f-string interpolation of an optional string: `None` prints as
the text `None`. -/
def optPyStr : Option String → String
  | some s => s
  | none => "None"

/-- The `mood_map` of `to_prompt_string` (context.py line 115), with the
`.get(_, "Unknown")` default. -/
def moodLabel (m : Nat) : String :=
  if m = 1 then "😞 Low"
  else if m = 2 then "😕 Below average"
  else if m = 3 then "😐 Neutral"
  else if m = 4 then "🙂 Good"
  else if m = 5 then "😊 Great"
  else "Unknown"

/-- `DialogContext.to_prompt_string` (context.py lines 61-131): the section
list is assembled in source order, each guarded by the same truthiness tests
as the Python conditionals, then joined by blank lines. -/
def DialogContext.to_prompt_string (c : DialogContext) : String :=
  let secs1 : List String := match c.persona_hint with
    | some p => if p = "" then [] else ["**User Profile**: " ++ p]
    | none => []
  let secs2 : List String := match c.monthly_income with
    | some inc =>
      let income_str := "$" ++ fmtMoney inc ++ "/month"
      let expense_str := match c.monthly_expenses with
        | some e => if e ≠ 0 then "$" ++ fmtMoney e ++ "/month" else "Unknown"
        | none => "Unknown"
      let surplus_str := match c.estimated_surplus with
        | some s => if s ≠ 0 then "$" ++ fmtMoney s else "Unknown"
        | none => "Unknown"
      ["**Financial Snapshot**:\n  - Monthly Income: " ++ income_str ++
       "\n  - Monthly Expenses: " ++ expense_str ++
       "\n  - Estimated Surplus: " ++ surplus_str]
    | none => []
  let secs3 : List String := match c.total_debt with
    | some d =>
      if d > 0 then
        ["**Debts**: " ++ toString c.debt_count ++ " debt(s) totaling $" ++ fmtMoney d]
      else []
    | none => []
  let secs4 : List String := match c.total_savings with
    | some s =>
      if s > 0 then
        ["**Savings**: " ++ toString c.savings_count ++ " account(s) totaling $" ++
         fmtMoney s]
      else []
    | none => []
  let secs5 : List String :=
    if c.active_goals.isEmpty then ["**Active Goals**: None yet"]
    else
      let goals_list := (c.active_goals.take 5).map (fun g =>
        "  - " ++ g.name ++ ": $" ++ fmtMoney g.target_amount ++ " by " ++
        optPyStr g.target_date ++ " (Priority: " ++ optPyStr g.priority ++ ")")
      ["**Active Goals** (" ++ toString c.active_goals.length ++ " total):\n" ++
       String.intercalate "\n" goals_list]
  let secs6 : List String := match c.recent_checkin_mood with
    | some m => if m ≠ 0 then ["**Recent Mood**: " ++ moodLabel m] else []
    | none => []
  let secs7 : List String := match c.days_since_last_checkin with
    | some d => ["**Last Check-in**: " ++ toString d ++ " days ago"]
    | none => []
  let secs8 : List String := match c.plan_summary with
    | some ps =>
      ["**Current Plan**:\n  - Surplus: $" ++ fmtMoney ps.estimated_monthly_surplus ++
       "\n  - Total Allocated: $" ++ fmtMoney ps.total_required_contributions ++
       "\n  - Buffer Remaining: $" ++ fmtMoney ps.buffer_remaining]
    | none => []
  let sections := secs1 ++ secs2 ++ secs3 ++ secs4 ++ secs5 ++ secs6 ++ secs7 ++ secs8
  if sections.isEmpty then "No financial data available yet."
  else String.intercalate "\n\n" sections

/-! ## `app/services/dialog/conversation.py`: the conversation service

The session store becomes an association list inside an explicit state
record; UUID generation is modelled by a caller-supplied fresh id;
timestamps are not modelled (no claim touches them).  The fallback chain of
§`fallback.py` plays the role of `self.llm`; its behaviour is
message-independent in this model, so the message window passed to it is
computed but not consumed.  `providerCalls` counts the provider-level
`generate` calls and started streams, the only paths through which any
provider is ever invoked. -/

/-- `ConversationSession` (conversation.py lines 27-66). -/
structure ConversationSession where
  id : Nat
  user_id : Nat
  messages : List ConvMessage
  intent : String
  context_snapshot : Option DialogContext
  deriving Repr, DecidableEq

/-- `ConversationSession.add_message` (lines 47-50). -/
def ConversationSession.add_message (s : ConversationSession)
    (role content : String) : ConversationSession :=
  { s with messages := s.messages ++ [⟨role, content⟩] }

/-- `ConversationSession.get_recent_messages` (lines 52-66): the first
system message, then the last `limit` non-system messages. -/
def ConversationSession.get_recent_messages (s : ConversationSession)
    (limit : Nat) : List ConvMessage :=
  let sys := match s.messages.find? (fun m => m.role == "system") with
    | some m => [m]
    | none => []
  let nonSystem := s.messages.filter (fun m => m.role != "system")
  sys ++ nonSystem.drop (nonSystem.length - limit)

/-- The mutable state of a `ConversationService`: the module-level session
store and the cumulative number of provider invocations. -/
structure ConvState where
  sessions : List (Nat × ConversationSession)
  providerCalls : Nat
  deriving Repr

/-- `ConversationService.SAFETY_DISCLAIMER` (lines 87-90). -/
def SAFETY_DISCLAIMER : String :=
  "\n\n*This is educational guidance, not professional financial advice. " ++
  "Please consult a qualified financial advisor for personalized recommendations.*"

/-- `ConversationService._needs_disclaimer` (lines 335-358). -/
def needs_disclaimer (text : String) : Bool :=
  let advice_indicators := ["recommend", "should invest", "i suggest", "my advice",
    "you should", "consider investing", "put your money", "best strategy",
    "optimal approach"]
  advice_indicators.any (fun p => isInfixB p.data (text.data.map Char.toLower))

/-- Python `not user_message or not user_message.strip()` (lines 181, 241):
empty or whitespace-only. -/
def pyStrIsBlank (s : String) : Bool := (pyStripChars s.data).isEmpty

/-- Dictionary lookup in the session store. -/
def lookupSession (st : ConvState) (sid : Nat) : Option ConversationSession :=
  (st.sessions.find? (fun kv => kv.1 == sid)).map (·.2)

/-- In-place mutation of the session object held by the store. -/
def updateSession (st : ConvState) (sid : Nat) (s : ConversationSession) : ConvState :=
  { st with sessions := st.sessions.map (fun kv => if kv.1 == sid then (sid, s) else kv) }

/-- Python `self._sessions[session_id] = session`: replace, or append for a
new key (dict insertion order). -/
def storeSession (st : ConvState) (sid : Nat) (s : ConversationSession) : ConvState :=
  if (st.sessions.find? (fun kv => kv.1 == sid)).isSome then updateSession st sid s
  else { st with sessions := st.sessions ++ [(sid, s)] }

/-- `ConversationService.get_session_count` (lines 360-362). -/
def get_session_count (st : ConvState) : Nat := st.sessions.length

/-- The caller-visible exceptions of the conversation service:
`ConversationError` with its message and session id, or a propagated
template `ValueError` (never reachable with the built-in registry). -/
inductive PyConvError where
  | conversationError (message : String) (session_id : String)
  | templateError
  deriving Repr, DecidableEq

/-- `ConversationService.start_session` (conversation.py lines 112-152):
build the context, render the system prompt for the intent, create the
session seeded with the system message, and store it under the fresh id. -/
def start_session (st : ConvState) (newId : Nat) (user : UserRec) (db : UserDb)
    (intent : String) : Except Unit (ConversationSession × ConvState) :=
  let context := ContextBuilder.build user db
  match get_system_prompt intent (some context.to_prompt_string) with
  | .error e => .error e
  | .ok system_prompt =>
    let session : ConversationSession :=
      { id := newId, user_id := user.id, messages := [], intent := intent,
        context_snapshot := some context }
    let session := session.add_message "system" system_prompt
    .ok (session, storeSession st newId session)

/-- Provider-level `generate` calls recorded in a chain trace. -/
def traceCalls : List ProvTrace → Nat
  | [] => 0
  | .skipped _ :: t => traceCalls t
  | .tried _ c _ :: t => c + traceCalls t

/-- Number of provider streams the chain starts (one per available provider
until the first completed stream). -/
def streamTried : List Provider → Nat
  | [] => 0
  | p :: rest =>
    if p.avail then
      match p.streamTerm with
      | .complete => 1
      | _ => 1 + streamTried rest
    else streamTried rest

/-- Lines 171-178 of `send_message` (identical in `stream_message`): reuse
the stored session when an id is supplied and known, otherwise auto-detect
the intent from the message and start a session. -/
def get_or_create_session (st : ConvState) (session_id : Option Nat)
    (user_message : String) (user : UserRec) (db : UserDb) (newId : Nat) :
    Except Unit (ConversationSession × ConvState) :=
  match session_id with
  | some sid =>
    match lookupSession st sid with
    | some s => .ok (s, st)
    | none =>
      let detected := IntentDetector.detect user_message
      start_session st newId user db (get_intent_for_prompt detected.intent)
  | none =>
    let detected := IntentDetector.detect user_message
    start_session st newId user db (get_intent_for_prompt detected.intent)

/-- Lines 187-213 of `send_message`: the generation path, reached only after
validation passed. -/
def sendCore (providers : List Provider) (maxRetries : Nat) (st1 : ConvState)
    (session : ConversationSession) (user_message : String) :
    Except PyConvError String × ConvState :=
  let session := session.add_message "user" user_message
  let st2 := updateSession st1 session.id session
  let _messages := session.get_recent_messages 20
  let res := FallbackChain.generate providers maxRetries
  let st3 := { st2 with providerCalls := st2.providerCalls + traceCalls res.2 }
  match res.1 with
  | .ok response =>
    let session := session.add_message "assistant" response.content
    let st4 := updateSession st3 session.id session
    let final_response :=
      if needs_disclaimer response.content then response.content ++ SAFETY_DISCLAIMER
      else response.content
    (.ok final_response, st4)
  | .error _ =>
    (.error (.conversationError "Failed to generate response. Please try again."
        (toString session.id)), st3)

/-- `ConversationService.send_message` (conversation.py lines 154-213). -/
def send_message (providers : List Provider) (maxRetries : Nat) (st : ConvState)
    (session_id : Option Nat) (user_message : String) (user : UserRec)
    (db : UserDb) (newId : Nat) : Except PyConvError String × ConvState :=
  match get_or_create_session st session_id user_message user db newId with
  | .error _ => (.error .templateError, st)
  | .ok (session, st1) =>
    if pyStrIsBlank user_message then
      (.error (.conversationError "Message cannot be empty" (toString session.id)), st1)
    else sendCore providers maxRetries st1 session user_message

/-- Lines 247-271 of `stream_message`: the streaming path, reached only
after validation passed. -/
def streamCore (providers : List Provider) (st1 : ConvState)
    (session : ConversationSession) (user_message : String) :
    (List String × Except PyConvError Unit) × ConvState :=
  let session := session.add_message "user" user_message
  let st2 := updateSession st1 session.id session
  let _messages := session.get_recent_messages 20
  let res := FallbackChain.stream providers
  let st3 := { st2 with providerCalls := st2.providerCalls + streamTried providers }
  match res.2 with
  | .ok _ =>
    let full_response := String.join res.1
    let session := session.add_message "assistant" full_response
    let st4 := updateSession st3 session.id session
    let frags :=
      if needs_disclaimer full_response then res.1 ++ [SAFETY_DISCLAIMER] else res.1
    ((frags, .ok ()), st4)
  | .error _ =>
    ((res.1, .error (.conversationError "Streaming failed. Please try again."
        (toString session.id))), st3)

/-- `ConversationService.stream_message` (conversation.py lines 215-271):
the returned fragment list is everything the caller received before the
generator finished or raised. -/
def stream_message (providers : List Provider) (st : ConvState)
    (session_id : Option Nat) (user_message : String) (user : UserRec)
    (db : UserDb) (newId : Nat) :
    (List String × Except PyConvError Unit) × ConvState :=
  match get_or_create_session st session_id user_message user db newId with
  | .error _ => (([], .error .templateError), st)
  | .ok (session, st1) =>
    if pyStrIsBlank user_message then
      (([], .error (.conversationError "Message cannot be empty" (toString session.id))),
       st1)
    else streamCore providers st1 session user_message

/-! ### Lemmas about the conversation service -/

/-- Every template reachable from `get_system_prompt` has parseable prompt
text. -/
theorem builtin_templates_parse :
    ∀ t ∈ generalTemplate :: DEFAULT_PROMPTS.map Prod.snd,
      (parseFmt t.system_prompt).isSome = true := by decide

/-- `get_system_prompt` never raises: the template registry holds only the
built-ins, and every one of them renders with the context value supplied. -/
theorem get_system_prompt_ok (intent : String) (ctx : Option String) :
    ∃ s, get_system_prompt intent ctx = .ok s := by
  unfold get_system_prompt
  have htmpl : (match PromptManager.get_template (map_intent_to_template intent) with
      | .ok t => t
      | .error _ => generalTemplate) ∈
      generalTemplate :: DEFAULT_PROMPTS.map Prod.snd := by
    unfold PromptManager.get_template
    cases hf : DEFAULT_PROMPTS.find? (fun kv => kv.1 == map_intent_to_template intent) with
    | none => simp
    | some kv =>
      have hm := List.mem_of_find?_eq_some hf
      simp only []
      exact List.mem_cons_of_mem _ (List.mem_map_of_mem Prod.snd hm)
  obtain ⟨segs, hsegs⟩ := Option.isSome_iff_exists.mp (builtin_templates_parse _ htmpl)
  exact ⟨_, render_of_parse _ _ segs hsegs (by simp)⟩

/-- `start_session` always succeeds and stores a session seeded with exactly
the system message under the supplied fresh id. -/
theorem start_session_ok (st : ConvState) (newId : Nat) (user : UserRec)
    (db : UserDb) (intent : String) :
    ∃ sess, start_session st newId user db intent = .ok (sess, storeSession st newId sess) ∧
      sess.id = newId ∧ sess.intent = intent ∧ sess.user_id = user.id ∧
      sess.messages.length = 1 ∧
      sess.messages.head?.map (·.role) = some "system" := by
  obtain ⟨sp, hsp⟩ :=
    get_system_prompt_ok intent (some (ContextBuilder.build user db).to_prompt_string)
  refine ⟨⟨newId, user.id, [⟨"system", sp⟩], intent, some (ContextBuilder.build user db)⟩,
    ?_, rfl, rfl, rfl, rfl, rfl⟩
  unfold start_session
  simp only [hsp, ConversationSession.add_message, List.nil_append]

/-- The store assignment never touches the provider-call counter. -/
theorem storeSession_providerCalls (st : ConvState) (sid : Nat)
    (s : ConversationSession) :
    (storeSession st sid s).providerCalls = st.providerCalls := by
  unfold storeSession updateSession
  split <;> rfl

/-- Appending a fresh key to the store. -/
theorem storeSession_fresh (st : ConvState) (sid : Nat) (s : ConversationSession)
    (h : lookupSession st sid = none) :
    storeSession st sid s = { st with sessions := st.sessions ++ [(sid, s)] } := by
  unfold storeSession
  have hf : st.sessions.find? (fun kv => kv.1 == sid) = none := by
    unfold lookupSession at h
    exact Option.map_eq_none.mp h
  rw [hf]
  rfl

/-- Looking up the key just appended to the store. -/
theorem lookupSession_append (st : ConvState) (sid : Nat) (s : ConversationSession)
    (h : lookupSession st sid = none) :
    lookupSession { st with sessions := st.sessions ++ [(sid, s)] } sid = some s := by
  have hf : st.sessions.find? (fun kv => kv.1 == sid) = none := by
    unfold lookupSession at h
    exact Option.map_eq_none.mp h
  unfold lookupSession
  simp [List.find?_append, hf]

/-- Session lookup or creation always yields a session, without touching the
provider-call counter. -/
theorem get_or_create_session_ok (st : ConvState) (session_id : Option Nat)
    (user_message : String) (user : UserRec) (db : UserDb) (newId : Nat) :
    ∃ sess st1, get_or_create_session st session_id user_message user db newId =
        .ok (sess, st1) ∧ st1.providerCalls = st.providerCalls := by
  cases session_id with
  | none =>
    obtain ⟨sess, hss, _⟩ := start_session_ok st newId user db
      (get_intent_for_prompt (IntentDetector.detect user_message).intent)
    exact ⟨sess, _, by simp only [get_or_create_session, hss],
      storeSession_providerCalls st newId sess⟩
  | some sid =>
    cases hlk : lookupSession st sid with
    | some s => exact ⟨s, st, by simp only [get_or_create_session, hlk], rfl⟩
    | none =>
      obtain ⟨sess, hss, _⟩ := start_session_ok st newId user db
        (get_intent_for_prompt (IntentDetector.detect user_message).intent)
      exact ⟨sess, _, by simp only [get_or_create_session, hlk, hss],
        storeSession_providerCalls st newId sess⟩

/-- Rejection shape of `send_message` on a blank message. -/
theorem send_message_blank (providers : List Provider) (maxRetries : Nat)
    (st : ConvState) (session_id : Option Nat) (user_message : String)
    (user : UserRec) (db : UserDb) (newId : Nat)
    (sess : ConversationSession) (st1 : ConvState)
    (hblank : pyStrIsBlank user_message = true)
    (hget : get_or_create_session st session_id user_message user db newId =
      .ok (sess, st1)) :
    send_message providers maxRetries st session_id user_message user db newId =
      (.error (.conversationError "Message cannot be empty" (toString sess.id)), st1) := by
  unfold send_message
  rw [hget]
  simp [hblank]

/-- Rejection shape of `stream_message` on a blank message. -/
theorem stream_message_blank (providers : List Provider)
    (st : ConvState) (session_id : Option Nat) (user_message : String)
    (user : UserRec) (db : UserDb) (newId : Nat)
    (sess : ConversationSession) (st1 : ConvState)
    (hblank : pyStrIsBlank user_message = true)
    (hget : get_or_create_session st session_id user_message user db newId =
      .ok (sess, st1)) :
    stream_message providers st session_id user_message user db newId =
      (([], .error (.conversationError "Message cannot be empty" (toString sess.id))),
       st1) := by
  unfold stream_message
  rw [hget]
  simp [hblank]

/-! ### Claim theorems for the conversation service -/

/-- C7: an empty or whitespace-only message is always rejected with the
`ConversationError` validation failure, by `send_message` and by
`stream_message` alike, and no provider `generate` call and no provider
stream happens for the call: the provider-call counter is unchanged. -/
theorem cl_C7_blank_message_rejected (providers : List Provider)
    (maxRetries : Nat) (st : ConvState) (session_id : Option Nat)
    (user_message : String) (user : UserRec) (db : UserDb) (newId : Nat)
    (hblank : pyStrIsBlank user_message = true) :
    (∃ sid, (send_message providers maxRetries st session_id user_message
        user db newId).1 = .error (.conversationError "Message cannot be empty" sid)) ∧
    ((send_message providers maxRetries st session_id user_message
        user db newId).2).providerCalls = st.providerCalls ∧
    (∃ sid, (stream_message providers st session_id user_message
        user db newId).1.2 = .error (.conversationError "Message cannot be empty" sid)) ∧
    ((stream_message providers st session_id user_message
        user db newId).2).providerCalls = st.providerCalls := by
  obtain ⟨sess, st1, hget, hpc⟩ :=
    get_or_create_session_ok st session_id user_message user db newId
  have hsend := send_message_blank providers maxRetries st session_id user_message
    user db newId sess st1 hblank hget
  have hstream := stream_message_blank providers st session_id user_message
    user db newId sess st1 hblank hget
  refine ⟨⟨toString sess.id, ?_⟩, ?_, ⟨toString sess.id, ?_⟩, ?_⟩
  · rw [hsend]
  · rw [hsend]; exact hpc
  · rw [hstream]
  · rw [hstream]; exact hpc

/-- Witness for C7: a whitespace-only message on a fresh service keeps the
provider counter at zero and yields the validation error, for both entry
points. -/
theorem cl_C7_blank_message_rejected_witness :
    (∃ sid, (send_message [] 0 ⟨[], 0⟩ none " " ⟨1, "a@b.c", none⟩
        ⟨.ok none, .ok none, .ok [], .ok [], .ok [], .ok none, .ok none⟩ 0).1 =
      .error (.conversationError "Message cannot be empty" sid)) ∧
    ((send_message [] 0 ⟨[], 0⟩ none " " ⟨1, "a@b.c", none⟩
        ⟨.ok none, .ok none, .ok [], .ok [], .ok [], .ok none, .ok none⟩ 0).2).providerCalls
      = 0 ∧
    (∃ sid, (stream_message [] ⟨[], 0⟩ none " " ⟨1, "a@b.c", none⟩
        ⟨.ok none, .ok none, .ok [], .ok [], .ok [], .ok none, .ok none⟩ 0).1.2 =
      .error (.conversationError "Message cannot be empty" sid)) ∧
    ((stream_message [] ⟨[], 0⟩ none " " ⟨1, "a@b.c", none⟩
        ⟨.ok none, .ok none, .ok [], .ok [], .ok [], .ok none, .ok none⟩ 0).2).providerCalls
      = 0 :=
  cl_C7_blank_message_rejected [] 0 ⟨[], 0⟩ none " " ⟨1, "a@b.c", none⟩
    ⟨.ok none, .ok none, .ok [], .ok [], .ok [], .ok none, .ok none⟩ 0 (by decide)

/-- C10 (implicit): when the message is blank and the session id is absent or
unknown, both entry points first create and store a session (seeded with a
system message, its intent detected from the message), mutating the store —
the session count grows by one — and only then raise the validation error. -/
theorem cl_C10_store_mutated_despite_rejection (providers : List Provider)
    (maxRetries : Nat) (st : ConvState) (session_id : Option Nat)
    (user_message : String) (user : UserRec) (db : UserDb) (newId : Nat)
    (hblank : pyStrIsBlank user_message = true)
    (hmiss : ∀ sid, session_id = some sid → lookupSession st sid = none)
    (hfresh : lookupSession st newId = none) :
    ∃ sess : ConversationSession,
      sess.intent = get_intent_for_prompt (IntentDetector.detect user_message).intent ∧
      sess.messages.length = 1 ∧
      sess.messages.head?.map (·.role) = some "system" ∧
      (send_message providers maxRetries st session_id user_message
          user db newId).2.sessions = st.sessions ++ [(newId, sess)] ∧
      get_session_count (send_message providers maxRetries st session_id user_message
          user db newId).2 = get_session_count st + 1 ∧
      lookupSession (send_message providers maxRetries st session_id user_message
          user db newId).2 newId = some sess ∧
      (∃ sid, (send_message providers maxRetries st session_id user_message
          user db newId).1 = .error (.conversationError "Message cannot be empty" sid)) ∧
      (stream_message providers st session_id user_message
          user db newId).2.sessions = st.sessions ++ [(newId, sess)] ∧
      get_session_count (stream_message providers st session_id user_message
          user db newId).2 = get_session_count st + 1 ∧
      lookupSession (stream_message providers st session_id user_message
          user db newId).2 newId = some sess ∧
      (∃ sid, (stream_message providers st session_id user_message
          user db newId).1.2 =
        .error (.conversationError "Message cannot be empty" sid)) := by
  have hgoc : get_or_create_session st session_id user_message user db newId =
      start_session st newId user db
        (get_intent_for_prompt (IntentDetector.detect user_message).intent) := by
    cases session_id with
    | none => rfl
    | some sid => simp [get_or_create_session, hmiss sid rfl]
  obtain ⟨sess, hss, hid, hint, _, hlen, hrole⟩ := start_session_ok st newId user db
    (get_intent_for_prompt (IntentDetector.detect user_message).intent)
  have hget : get_or_create_session st session_id user_message user db newId =
      .ok (sess, { st with sessions := st.sessions ++ [(newId, sess)] }) := by
    rw [hgoc, hss, storeSession_fresh st newId sess hfresh]
  have hsend := send_message_blank providers maxRetries st session_id user_message
    user db newId sess _ hblank hget
  have hstream := stream_message_blank providers st session_id user_message
    user db newId sess _ hblank hget
  refine ⟨sess, hint, hlen, hrole, ?_, ?_, ?_, ⟨toString sess.id, ?_⟩,
    ?_, ?_, ?_, ⟨toString sess.id, ?_⟩⟩
  · rw [hsend]
  · rw [hsend]
    simp [get_session_count]
  · rw [hsend]
    exact lookupSession_append st newId sess hfresh
  · rw [hsend]
  · rw [hstream]
  · rw [hstream]
    simp [get_session_count]
  · rw [hstream]
    exact lookupSession_append st newId sess hfresh
  · rw [hstream]

/-- Witness for C10: a blank message with no session id on an empty store
creates and stores one session with the general intent, then rejects. -/
theorem cl_C10_store_mutated_despite_rejection_witness :
    ∃ sess : ConversationSession,
      sess.intent = get_intent_for_prompt (IntentDetector.detect "").intent ∧
      sess.messages.length = 1 ∧
      sess.messages.head?.map (·.role) = some "system" ∧
      (send_message [] 0 ⟨[], 0⟩ none "" ⟨1, "a@b.c", none⟩
          ⟨.ok none, .ok none, .ok [], .ok [], .ok [], .ok none, .ok none⟩ 5).2.sessions =
        ([] : List (Nat × ConversationSession)) ++ [(5, sess)] ∧
      get_session_count (send_message [] 0 ⟨[], 0⟩ none "" ⟨1, "a@b.c", none⟩
          ⟨.ok none, .ok none, .ok [], .ok [], .ok [], .ok none, .ok none⟩ 5).2 =
        get_session_count ⟨[], 0⟩ + 1 ∧
      lookupSession (send_message [] 0 ⟨[], 0⟩ none "" ⟨1, "a@b.c", none⟩
          ⟨.ok none, .ok none, .ok [], .ok [], .ok [], .ok none, .ok none⟩ 5).2 5 =
        some sess ∧
      (∃ sid, (send_message [] 0 ⟨[], 0⟩ none "" ⟨1, "a@b.c", none⟩
          ⟨.ok none, .ok none, .ok [], .ok [], .ok [], .ok none, .ok none⟩ 5).1 =
        .error (.conversationError "Message cannot be empty" sid)) ∧
      (stream_message [] ⟨[], 0⟩ none "" ⟨1, "a@b.c", none⟩
          ⟨.ok none, .ok none, .ok [], .ok [], .ok [], .ok none, .ok none⟩ 5).2.sessions =
        ([] : List (Nat × ConversationSession)) ++ [(5, sess)] ∧
      get_session_count (stream_message [] ⟨[], 0⟩ none "" ⟨1, "a@b.c", none⟩
          ⟨.ok none, .ok none, .ok [], .ok [], .ok [], .ok none, .ok none⟩ 5).2 =
        get_session_count ⟨[], 0⟩ + 1 ∧
      lookupSession (stream_message [] ⟨[], 0⟩ none "" ⟨1, "a@b.c", none⟩
          ⟨.ok none, .ok none, .ok [], .ok [], .ok [], .ok none, .ok none⟩ 5).2 5 =
        some sess ∧
      (∃ sid, (stream_message [] ⟨[], 0⟩ none "" ⟨1, "a@b.c", none⟩
          ⟨.ok none, .ok none, .ok [], .ok [], .ok [], .ok none, .ok none⟩ 5).1.2 =
        .error (.conversationError "Message cannot be empty" sid)) :=
  cl_C10_store_mutated_despite_rejection [] 0 ⟨[], 0⟩ none "" ⟨1, "a@b.c", none⟩
    ⟨.ok none, .ok none, .ok [], .ok [], .ok [], .ok none, .ok none⟩ 5
    (by decide) (fun sid h => nomatch h) rfl

end Fincred
